import Mathlib

/-!
# Goodix 5395 driver (libfprint/drivers/goodixtls/5395/goodix5395.c)

A shallow embedding of the bring-up code of the driver, and theorems about it.

Conventions of the embedding.

* A `guint8` is a `Byte` (`Fin 256`); a `GByteArray` is the list of its bytes, its `len`
  is the length of the list.  16-bit and 32-bit machine values are natural numbers or
  integers, reduced explicitly where the C code truncates.
* The transport, the capture pipeline and the state-machine runtime are not part of the
  file.  Every call into them is recorded as an `Event` in the session trace, in program
  order, and what the call returns is an argument of the handler that makes it.
* The code reads reply payloads through pointers without comparing with the length.
  Such a read is `mem_read`, which has no value past the end of the buffer.  A handler
  that makes a read without value records `Event.out_of_bounds_read` and is followed no
  further: from that event on the behaviour of the program is undefined, and the session
  says nothing about it.
-/

namespace Goodix5395

/-- One `guint8`. -/
abbrev Byte := Fin 256

/-! ## Constants of the file -/

/-- The text of `FIRMWARE_VERSION_1`. -/
def FIRMWARE_VERSION_1 : List Byte :=
  [0x47, 0x46, 0x35, 0x32, 0x38, 0x38, 0x5f, 0x48, 0x54, 0x53, 0x45, 0x43, 0x5f,
   0x41, 0x50, 0x50, 0x5f, 0x31, 0x30, 0x30, 0x31, 0x31]

/-- The text of `FIRMWARE_VERSION_2`. -/
def FIRMWARE_VERSION_2 : List Byte :=
  [0x47, 0x46, 0x35, 0x32, 0x38, 0x38, 0x5f, 0x48, 0x54, 0x53, 0x45, 0x43, 0x5f,
   0x41, 0x50, 0x50, 0x5f, 0x31, 0x30, 0x30, 0x32, 0x30]

/-- The same two constants as Lean strings, to tie the byte lists to the source text. -/
def FIRMWARE_VERSION_1_text : String := "GF5288_HTSEC_APP_10011"

/-- Second accepted firmware string. -/
def FIRMWARE_VERSION_2_text : String := "GF5288_HTSEC_APP_10020"

/-- The bytes of an ASCII string constant. -/
def ascii_bytes (s : String) : List Byte :=
  s.toList.map (fun c => (Fin.ofNat c.toNat : Byte))

/-- The table `goodix_5395_otp_hash`. -/
def goodix_5395_otp_hash : List Byte := [
  0x00, 0x07, 0x0e, 0x09, 0x1c, 0x1b, 0x12, 0x15, 0x38, 0x3f, 0x36, 0x31, 0x24, 0x23, 0x2a, 0x2d,
  0x70, 0x77, 0x7e, 0x79, 0x6c, 0x6b, 0x62, 0x65, 0x48, 0x4f, 0x46, 0x41, 0x54, 0x53, 0x5a, 0x5d,
  0xe0, 0xe7, 0xee, 0xe9, 0xfc, 0xfb, 0xf2, 0xf5, 0xd8, 0xdf, 0xd6, 0xd1, 0xc4, 0xc3, 0xca, 0xcd,
  0x90, 0x97, 0x9e, 0x99, 0x8c, 0x8b, 0x82, 0x85, 0xa8, 0xaf, 0xa6, 0xa1, 0xb4, 0xb3, 0xba, 0xbd,
  0xc7, 0xc0, 0xc9, 0xce, 0xdb, 0xdc, 0xd5, 0xd2, 0xff, 0xf8, 0xf1, 0xf6, 0xe3, 0xe4, 0xed, 0xea,
  0xb7, 0xb0, 0xb9, 0xbe, 0xab, 0xac, 0xa5, 0xa2, 0x8f, 0x88, 0x81, 0x86, 0x93, 0x94, 0x9d, 0x9a,
  0x27, 0x20, 0x29, 0x2e, 0x3b, 0x3c, 0x35, 0x32, 0x1f, 0x18, 0x11, 0x16, 0x03, 0x04, 0x0d, 0x0a,
  0x57, 0x50, 0x59, 0x5e, 0x4b, 0x4c, 0x45, 0x42, 0x6f, 0x68, 0x61, 0x66, 0x73, 0x74, 0x7d, 0x7a,
  0x89, 0x8e, 0x87, 0x80, 0x95, 0x92, 0x9b, 0x9c, 0xb1, 0xb6, 0xbf, 0xb8, 0xad, 0xaa, 0xa3, 0xa4,
  0xf9, 0xfe, 0xf7, 0xf0, 0xe5, 0xe2, 0xeb, 0xec, 0xc1, 0xc6, 0xcf, 0xc8, 0xdd, 0xda, 0xd3, 0xd4,
  0x69, 0x6e, 0x67, 0x60, 0x75, 0x72, 0x7b, 0x7c, 0x51, 0x56, 0x5f, 0x58, 0x4d, 0x4a, 0x43, 0x44,
  0x19, 0x1e, 0x17, 0x10, 0x05, 0x02, 0x0b, 0x0c, 0x21, 0x26, 0x2f, 0x28, 0x3d, 0x3a, 0x33, 0x34,
  0x4e, 0x49, 0x40, 0x47, 0x52, 0x55, 0x5c, 0x5b, 0x76, 0x71, 0x78, 0x7f, 0x6a, 0x6d, 0x64, 0x63,
  0x3e, 0x39, 0x30, 0x37, 0x22, 0x25, 0x2c, 0x2b, 0x06, 0x01, 0x08, 0x0f, 0x1a, 0x1d, 0x14, 0x13,
  0xae, 0xa9, 0xa0, 0xa7, 0xb2, 0xb5, 0xbc, 0xbb, 0x96, 0x91, 0x98, 0x9f, 0x8a, 0x8d, 0x84, 0x83,
  0xde, 0xd9, 0xd0, 0xd7, 0xc2, 0xc5, 0xcc, 0xcb, 0xe6, 0xe1, 0xe8, 0xef, 0xfa, 0xfd, 0xf4, 0xf3]

/-- The array `goodix5395_psk_white_box`. -/
def goodix5395_psk_white_box : List Byte := [
  0xec, 0x35, 0xae, 0x3a, 0xbb, 0x45, 0xed, 0x3f, 0x12, 0xc4, 0x75, 0x1f, 0x1e, 0x5c, 0x2c, 0xc0,
  0x5b, 0x3c, 0x54, 0x52, 0xe9, 0x10, 0x4d, 0x9f, 0x2a, 0x31, 0x18, 0x64, 0x4f, 0x37, 0xa0, 0x4b,
  0x6f, 0xd6, 0x6b, 0x1d, 0x97, 0xcf, 0x80, 0xf1, 0x34, 0x5f, 0x76, 0xc8, 0x4f, 0x03, 0xff, 0x30,
  0xbb, 0x51, 0xbf, 0x30, 0x8f, 0x2a, 0x98, 0x75, 0xc4, 0x1e, 0x65, 0x92, 0xcd, 0x2a, 0x2f, 0x9e,
  0x60, 0x80, 0x9b, 0x17, 0xb5, 0x31, 0x60, 0x37, 0xb6, 0x9b, 0xb2, 0xfa, 0x5d, 0x4c, 0x8a, 0xc3,
  0x1e, 0xdb, 0x33, 0x94, 0x04, 0x6e, 0xc0, 0x6b, 0xbd, 0xac, 0xc5, 0x7d, 0xa6, 0xa7, 0x56, 0xc5]

/-- Width set in `class_init` (`img_width`). -/
def SENSOR_WIDTH : Nat := 88

/-- Height set in `class_init` (`img_height`). -/
def SENSOR_HEIGHT : Nat := 108

/-! ## Data model -/

/-- The enum `Goodix5395InitState`, without its length marker. -/
inductive Goodix5395InitState
  | INIT_DEVICE
  | CHECK_FIRMWARE
  | DEVICE_ENABLE
  | CHECK_SENSOR
  | CHECK_PSK
  | WRITE_PSK
  | ESTABLISH_GTS_CONNECTION
  | UPDATE_ALL_BASE
  | SET_SLEEP_MODE
  deriving DecidableEq, Repr

/-- The enumerator `DEVICE_INIT_NUM_STATES`. -/
def DEVICE_INIT_NUM_STATES : Nat := 9

/-- The integer value of an enumerator. -/
def Goodix5395InitState.toNat : Goodix5395InitState → Nat
  | .INIT_DEVICE => 0
  | .CHECK_FIRMWARE => 1
  | .DEVICE_ENABLE => 2
  | .CHECK_SENSOR => 3
  | .CHECK_PSK => 4
  | .WRITE_PSK => 5
  | .ESTABLISH_GTS_CONNECTION => 6
  | .UPDATE_ALL_BASE => 7
  | .SET_SLEEP_MODE => 8

/-- A `GoodixMessage`: category, command and payload. -/
structure GoodixMessage where
  category : Byte
  command : Byte
  payload : List Byte
  deriving DecidableEq, Repr

/-- One variadic argument of an error format. -/
inductive FormatArg
  | num (v : Int)
  | text (s : List Byte)
  | null
  deriving DecidableEq, Repr

/-- A `GError`.  `foreign` is an error made outside this file (transport, device layer,
secure channel), identified by a tag.  `device` is what `FPI_GOODIX_DEVICE_ERROR(code,
format, args)` builds: the code, the format and the arguments, not rendered. -/
inductive GError
  | foreign (tag : Nat)
  | device (code : Goodix5395InitState) (format : String) (args : List FormatArg)
  deriving DecidableEq, Repr

/-- A call that leaves this file, in the order the code makes it; and, as
`out_of_bounds_read`, the point at which a handler read past the end of a buffer. -/
inductive Event
  | empty_buffer
  | reset
  | send (message : GoodixMessage) (timeout_ms : Nat)
  | receive_data (timeout_ms : Nat)
  | upload_config
  | get_fdt_base_with_tx (tx_enable : Bool)
  | get_image (tx_enable : Bool) (hv_enable : Bool)
  | set_sleep_mode
  | gtls_connection
  | next_state
  | mark_failed (error : Option GError)
  | open_complete (error : Option GError)
  | out_of_bounds_read
  deriving DecidableEq, Repr

/-- Modelled from the spec: the state machine object of libfprint (`FpiSsm`, fpi-ssm.c is
not among the sources).  States run in order; a failure completes the machine with its
error; running past the last state completes it without one. -/
structure FpiSsm where
  nr_states : Nat
  cur_state : Nat
  completed : Bool
  failed : Bool
  error : Option GError
  deriving DecidableEq, Repr

/-- What the handlers read and write: the PSK flag of the device class, the calibration
parameters of the device, the state machine and the trace of outgoing calls. -/
structure Session where
  is_psk_valid : Bool
  calibration_params : Option (List Byte)
  fdt_bases : Option (List Byte)
  calibration_image : Option (List Byte)
  ssm : FpiSsm
  trace : List Event
  deriving DecidableEq, Repr

/-- A fresh machine of `n` states, as `fpi_ssm_new` returns it. -/
def fpi_ssm_new (n : Nat) : FpiSsm :=
  { nr_states := n, cur_state := 0, completed := false, failed := false, error := none }

/-- A session before bring-up: nothing calibrated, nothing sent. -/
def Session.fresh : Session :=
  { is_psk_valid := false, calibration_params := none, fdt_bases := none,
    calibration_image := none, ssm := fpi_ssm_new DEVICE_INIT_NUM_STATES, trace := [] }

/-- Record an outgoing call. -/
def emit (s : Session) (e : Event) : Session :=
  { s with trace := s.trace ++ [e] }

/-- Modelled from the spec: `fpi_ssm_next_state`.  The call is recorded; a machine that
is not completed moves to the next state and completes after the last one. -/
def fpi_ssm_next_state (s : Session) : Session :=
  let s1 := emit s Event.next_state
  if s1.ssm.completed then s1
  else
    { s1 with ssm :=
        { s1.ssm with
            cur_state := s1.ssm.cur_state + 1,
            completed := decide (s1.ssm.cur_state + 1 = s1.ssm.nr_states) } }

/-- Modelled from the spec: `fpi_ssm_mark_failed`.  The call is recorded with the error it
was given (`none` is a NULL pointer); a machine that is not completed becomes failed. -/
def fpi_ssm_mark_failed (s : Session) (error : Option GError) : Session :=
  let s1 := emit s (Event.mark_failed error)
  if s1.ssm.completed then s1
  else { s1 with ssm := { s1.ssm with completed := true, failed := true, error := error } }

/-- The constructor `fpi_goodix_protocol_create_message(category, command, payload, len)`. -/
def fpi_goodix_protocol_create_message (category command : Byte) (payload : List Byte) :
    GoodixMessage :=
  { category := category, command := command, payload := payload }

/-- Byte `i` seen through a pointer to the start of `buf`: the byte of the buffer at
that index, and no value when the index is past the end of the buffer. -/
def mem_read (buf : List Byte) (i : Nat) : Option Byte :=
  if i < buf.length then some (buf.getD i 0) else none

/-! ## Library functions the file calls (glib, libc, crypto_utils) -/

/-- The libc `strncpy(dest, src, n)`: bytes of `src` up to its first NUL, then NULs, `n`
bytes in all.  (`src` is never read past `n` bytes.) -/
def strncpy : List Byte → Nat → List Byte
  | _, 0 => []
  | [], n + 1 => List.replicate (n + 1) 0
  | c :: cs, n + 1 => if c = 0 then List.replicate (n + 1) 0 else c :: strncpy cs n

/-- The glib `g_strndup(str, n)`: a buffer of `n + 1` bytes, `strncpy` of `str` followed by
a NUL. -/
def g_strndup (str : List Byte) (n : Nat) : List Byte :=
  strncpy str n ++ [0]

/-- The libc `strcmp` on two NUL-terminated buffers: the difference of the first pair of
bytes that differ, 0 when both strings end together.  A buffer that ends without a NUL
counts as ending there. -/
def strcmp : List Byte → List Byte → Int
  | [], [] => 0
  | [], b :: _ => 0 - (b.val : Int)
  | a :: _, [] => (a.val : Int)
  | a :: as, b :: bs =>
    if a ≠ b then (a.val : Int) - (b.val : Int)
    else if a = 0 then 0
    else strcmp as bs

/-- The glib `g_strcmp0` on two non-NULL strings is `strcmp`. -/
def g_strcmp0 (s1 s2 : List Byte) : Int := strcmp s1 s2

/-- A C string literal: its characters and the terminating NUL. -/
def c_literal (chars : List Byte) : List Byte := chars ++ [0]

/-- The characters of a NUL-terminated buffer, the terminator excluded. -/
def c_string_chars (buf : List Byte) : List Byte := buf.takeWhile (fun c => decide (c ≠ 0))

/-- The libc `memcmp(p, q, n) == 0`, with `p` pointing `offset` bytes into `buf` and `q`
an array of `n` bytes.  The call has no value when the `n` bytes at `p` do not all lie
inside `buf`. -/
def memcmp_eq_zero (buf : List Byte) (offset : Nat) (q : List Byte) (n : Nat) :
    Option Bool :=
  if offset + n ≤ buf.length then
    some ((List.range n).all (fun i => decide (buf.getD (offset + i) 0 = q.getD i 0)))
  else none

/-- Reinterpret a 32-bit pattern as a C `int`. -/
def to_int32 (n : Nat) : Int :=
  if n % 4294967296 < 2147483648 then ((n % 4294967296 : Nat) : Int)
  else ((n % 4294967296 : Nat) : Int) - 4294967296

namespace Sha256

/-- The largest `x` below `2 ^ bits` above the start value with `x ^ k ≤ n`, found bit
by bit from the top. -/
def iroot_bits (k n : Nat) : Nat → Nat → Nat
  | 0, x => x
  | b + 1, x => if (x + 2 ^ b) ^ k ≤ n then iroot_bits k n b (x + 2 ^ b) else iroot_bits k n b x

/-- Integer `k`-th root of a number below `2 ^ (36 * k)`. -/
def iroot (k n : Nat) : Nat := iroot_bits k n 36 0

/-- The first 64 primes. -/
def first_primes : List Nat :=
  [2, 3, 5, 7, 11, 13, 17, 19, 23, 29, 31, 37, 41, 43, 47, 53, 59, 61, 67, 71, 73, 79, 83, 89,
   97, 101, 103, 107, 109, 113, 127, 131, 137, 139, 149, 151, 157, 163, 167, 173, 179, 181,
   191, 193, 197, 199, 211, 223, 227, 229, 233, 239, 241, 251, 257, 263, 269, 271, 277, 281,
   283, 293, 307, 311]

/-- Round constants: the first 32 bits of the fractional parts of the cube roots of the
first 64 primes. -/
def K : List Nat :=
  first_primes.map (fun p => iroot 3 (p * 2 ^ 96) % 4294967296)

/-- Initial hash value: the first 32 bits of the fractional parts of the square roots of
the first 8 primes. -/
def H0 : List Nat :=
  (first_primes.take 8).map (fun p => iroot 2 (p * 2 ^ 64) % 4294967296)

/-- Truncation to a 32-bit word. -/
def w32 (x : Nat) : Nat := x % 4294967296

/-- Rotate a 32-bit word right by `n`. -/
def rotr (x n : Nat) : Nat := w32 ((x >>> n) ||| (x <<< (32 - n)))

/-- Small sigma 0. -/
def ssig0 (x : Nat) : Nat := (rotr x 7).xor ((rotr x 18).xor (x >>> 3))

/-- Small sigma 1. -/
def ssig1 (x : Nat) : Nat := (rotr x 17).xor ((rotr x 19).xor (x >>> 10))

/-- Big sigma 0. -/
def bsig0 (x : Nat) : Nat := (rotr x 2).xor ((rotr x 13).xor (rotr x 22))

/-- Big sigma 1. -/
def bsig1 (x : Nat) : Nat := (rotr x 6).xor ((rotr x 11).xor (rotr x 25))

/-- The choice function. -/
def ch (x y z : Nat) : Nat := (x &&& y).xor ((w32 (4294967295 - x)) &&& z)

/-- The majority function. -/
def maj (x y z : Nat) : Nat := (x &&& y).xor ((x &&& z).xor (y &&& z))

/-- Padding: 0x80, zeros up to 56 modulo 64, then the bit length in 8 big-endian bytes. -/
def pad (msg : List Byte) : List Byte :=
  let l := msg.length
  let z := (119 - l % 64) % 64
  let bits := 8 * l
  msg ++ ([128] : List Byte) ++ (List.replicate z (0 : Byte)) ++
    ((List.range 8).map (fun i => (Fin.ofNat ((bits >>> (8 * (7 - i))) % 256) : Byte)))

/-- Big-endian 32-bit word at byte offset `i`. -/
def be32 (b : List Byte) (i : Nat) : Nat :=
  (b.getD i 0).val * 16777216 + (b.getD (i + 1) 0).val * 65536 +
    (b.getD (i + 2) 0).val * 256 + (b.getD (i + 3) 0).val

/-- Message schedule, newest word first: `wrev` holds W[t-1], W[t-2], ... -/
def schedule : Nat → List Nat → List Nat
  | 0, wrev => wrev
  | n + 1, wrev =>
    let w := w32 (ssig1 (wrev.getD 1 0) + wrev.getD 6 0 + ssig0 (wrev.getD 14 0) + wrev.getD 15 0)
    schedule n (w :: wrev)

/-- One round on the eight working variables. -/
def round (s : List Nat) (k w : Nat) : List Nat :=
  match s with
  | [a, b, c, d, e, f, g, h] =>
    let t1 := w32 (h + bsig1 e + ch e f g + k + w)
    let t2 := w32 (bsig0 a + maj a b c)
    [w32 (t1 + t2), a, b, c, w32 (d + t1), e, f, g]
  | _ => s

/-- All rounds of one block. -/
def rounds : List Nat → List Nat → List Nat → List Nat
  | k :: ks, w :: ws, s => rounds ks ws (round s k w)
  | _, _, s => s

/-- Compression of one 64-byte block. -/
def compress (h : List Nat) (block : List Byte) : List Nat :=
  let w0 := (List.range 16).map (fun i => be32 block (4 * i))
  let w := (schedule 48 w0.reverse).reverse
  List.zipWith (fun x y => w32 (x + y)) h (rounds K w h)

/-- Compression of `n` successive blocks. -/
def blocks : Nat → List Nat → List Byte → List Nat
  | 0, h, _ => h
  | n + 1, h, m => blocks n (compress h (m.take 64)) (m.drop 64)

/-- Modelled from the spec: `crypto_utils_sha256_hash` (crypto_utils.c is not among the
sources), the standard SHA-256 of FIPS 180-4 on a byte string. -/
def sha256 (msg : List Byte) : List Byte :=
  let p := pad msg
  let h := blocks (p.length / 64) H0 p
  h.flatMap (fun x =>
    [(Fin.ofNat (x >>> 24 % 256) : Byte), Fin.ofNat (x >>> 16 % 256),
     Fin.ofNat (x >>> 8 % 256), Fin.ofNat (x % 256)])

end Sha256

/-- The call `crypto_utils_sha256_hash(data, len)`. -/
def crypto_utils_sha256_hash (data : List Byte) : List Byte := Sha256.sha256 data

/-- The buffer `g_malloc0(32)`. -/
def g_malloc0 (n : Nat) : List Byte := List.replicate n 0

/-! ## Calibration validators of the file -/

/-- The loop of `fpi_goodix5395_is_fdt_base_valid`, `i` the loop variable; one unit of
fuel per iteration, and `len` units are more than the loop needs.  The counter is a
natural number: it is the `gint` of the code for arrays shorter than 2^31 bytes. -/
def fdt_loop (d1 d2 : List Byte) (len : Nat) (max_delta : Int) : Nat → Nat → Bool
  | 0, _ => true
  | fuel + 1, i =>
    if i < len then
      let fdt_val_1 : Nat := ((d1.getD i 0).val ||| ((d1.getD (i + 1) 0).val <<< 8)) % 65536
      let fdt_val_2 : Nat := ((d2.getD i 0).val ||| ((d2.getD (i + 1) 0).val <<< 8)) % 65536
      let delta : Int :=
        (Int.natAbs (((fdt_val_1 >>> 1 : Nat) : Int) - ((fdt_val_2 >>> 1 : Nat) : Int)) : Int)
          % 65536
      if delta > max_delta then false
      else fdt_loop d1 d2 len max_delta fuel (i + 2)
    else true

/-- The function `fpi_goodix5395_is_fdt_base_valid(fdt_base_1, fdt_base_2, max_delta)`. -/
def fpi_goodix5395_is_fdt_base_valid (fdt_base_1 fdt_base_2 : List Byte) (max_delta : Int) :
    Bool :=
  if fdt_base_1.length ≠ fdt_base_2.length then false
  else fdt_loop fdt_base_1 fdt_base_2 fdt_base_1.length max_delta fdt_base_1.length 0

/-- The function `fpi_goodix5395_validate_base_img(base_image_1, base_image_2,
image_threshold)` of the file.  It returns `void`, its body holds comments only, and no
live code calls it. -/
def fpi_goodix5395_validate_base_img (_base_image_1 _base_image_2 : List Byte)
    (_image_threshold : Byte) : Unit :=
  ()

/-- The sum `diff_sum` of absolute pixel differences, accumulated row by row over rows
2 .. SENSOR_HEIGHT - 3 and columns 2 .. SENSOR_WIDTH - 3, the pixel of row `row_idx` and
column `col_idx` being at offset `row_idx * SENSOR_WIDTH + col_idx`. -/
def interior_diff_sum (base_image_1 base_image_2 : List Byte) : Nat :=
  ((List.range' 2 (SENSOR_HEIGHT - 4)).map (fun row_idx =>
    ((List.range' 2 (SENSOR_WIDTH - 4)).map (fun col_idx =>
      let offset := row_idx * SENSOR_WIDTH + col_idx
      Int.natAbs (((base_image_2.getD offset 0).val : Int)
        - ((base_image_1.getD offset 0).val : Int)))).sum)).sum

/-- Modelled from the spec: `fpi_goodix_device_validate_base_img`, the image validator
that UPDATE_ALL_BASE calls; it lives in goodix_device.c, which is not among the sources.
Section 4.3 of the specification: both images are raw pixel buffers of the sensor
dimensions, a 2-pixel border on all sides is excluded, the mean absolute pixel
difference over the interior is computed, and the pair is valid iff the mean is at most
the threshold.  The computation is the one the comment inside
`fpi_goodix5395_validate_base_img` spells out: `diff_sum` over the interior rows and
columns, `avg = diff_sum / ((SENSOR_HEIGHT - 4) * (SENSOR_WIDTH - 4))`, invalid when
`avg > image_threshold`.  The threshold, which the call of line 374 leaves to the
device, is an argument here. -/
def fpi_goodix_device_validate_base_img (base_image_1 base_image_2 : List Byte)
    (image_threshold : Int) : Bool :=
  let diff_sum := interior_diff_sum base_image_1 base_image_2
  let avg : Rat := (diff_sum : Rat) / (((SENSOR_HEIGHT - 4) * (SENSOR_WIDTH - 4) : Nat) : Rat)
  if avg > (image_threshold : Rat) then false else true

/-! ## Bring-up handlers

`FAIL_SSM_AND_RETURN(ssm, error)` (defined in goodix_device.h) is taken as
`fpi_ssm_mark_failed(ssm, error); return;`: it leaves the function it is written in.
A `fpi_goodix_device_send` that returns FALSE has set `error`, one that returns TRUE has
left it NULL: its outcome is `some error` or `none`.  `fpi_goodix_device_receive_data`
returns the error or the message. -/

/-- The handler `fpi_goodix5395_activate_complete(ssm, dev, error)`. -/
def fpi_goodix5395_activate_complete (error : Option GError) (s : Session) : Session :=
  match error with
  | none => emit s (Event.open_complete none)
  | some _ => s

/-- The handler `fpi_device_goodixtls5395_ping(dev, ssm)`. -/
def fpi_device_goodixtls5395_ping (send_result : Option GError) (s : Session) : Session :=
  let s := emit s Event.empty_buffer
  let message := fpi_goodix_protocol_create_message 0 0x00 [0, 0]
  let s := emit s (Event.send message 500)
  match send_result with
  | none => fpi_ssm_next_state s
  | some error => fpi_ssm_mark_failed s (some error)

/-- The handler `fpi_device_goodixtls5395_device_enable(dev, ssm)`.  `decode_u32` is
`fpi_goodix_protocol_decode_u32`, whose 32-bit result is stored in an `int`. -/
def fpi_device_goodixtls5395_device_enable (decode_u32 : List Byte → Nat)
    (send_result : Option GError) (receive_result : Except GError GoodixMessage)
    (s : Session) : Session :=
  let s := emit s Event.reset
  let enable_message := fpi_goodix_protocol_create_message 0x8 0x1 [0, 0, 0, 4]
  let s := emit s (Event.send enable_message 500)
  match send_result with
  | some error => fpi_ssm_mark_failed s (some error)
  | none =>
    let s := emit s (Event.receive_data 200)
    match receive_result with
    | Except.error error => fpi_ssm_mark_failed s (some error)
    | Except.ok receive_message =>
      if receive_message.category = 0x8 ∧ receive_message.command = 0x1 then
        let chip_id : Int := to_int32 (decode_u32 receive_message.payload)
        if chip_id >>> 8 ≠ 0x220C then
          fpi_ssm_mark_failed s (some (GError.device Goodix5395InitState.DEVICE_ENABLE
            "Unsupported chip ID %x" [FormatArg.num chip_id]))
        else
          fpi_ssm_next_state s
      else
        fpi_ssm_mark_failed s (some (GError.device Goodix5395InitState.DEVICE_ENABLE
          "Not a register read message for command %02x"
          [FormatArg.num receive_message.command.val]))

/-- The handler `fpi_device_goodixtls5395_check_firmware_version(dev, ssm)`. -/
def fpi_device_goodixtls5395_check_firmware_version (send_result : Option GError)
    (receive_result : Except GError GoodixMessage) (s : Session) : Session :=
  let message := fpi_goodix_protocol_create_message 0xA 4 [0x0, 0x0]
  let error : Option GError := none
  let s := emit s (Event.send message 500)
  match send_result with
  | some error => fpi_ssm_mark_failed s (some error)
  | none =>
    let s := emit s (Event.receive_data 2000)
    match receive_result with
    | Except.error error => fpi_ssm_mark_failed s (some error)
    | Except.ok receive_message =>
      if receive_message.category = 0xA ∧ receive_message.command = 4 then
        let fw_version := g_strndup receive_message.payload receive_message.payload.length
        if g_strcmp0 fw_version (c_literal FIRMWARE_VERSION_1) = 0
            ∨ g_strcmp0 fw_version (c_literal FIRMWARE_VERSION_2) = 0 then
          fpi_ssm_next_state s
        else
          fpi_ssm_mark_failed s (some (GError.device Goodix5395InitState.CHECK_FIRMWARE
            "Firmware %s version is not supported."
            [FormatArg.text (c_string_chars fw_version)]))
      else
        fpi_ssm_mark_failed s error

/-- The handler `fpi_device_goodixtls5395_check_sensor(dev, ssm)`.  `verify_otp_hash` is
`fpi_goodix_protocol_verify_otp_hash`, applied to the OTP and the table of this file. -/
def fpi_device_goodixtls5395_check_sensor (verify_otp_hash : List Byte → List Byte → Bool)
    (send_result : Option GError) (receive_result : Except GError GoodixMessage)
    (s : Session) : Session :=
  let check_message := fpi_goodix_protocol_create_message 0xA 0x3 [0x0, 0x0]
  let s := emit s (Event.send check_message 500)
  match send_result with
  | some error => fpi_ssm_mark_failed s (some error)
  | none =>
    let s := emit s (Event.receive_data 200)
    match receive_result with
    | Except.error error => fpi_ssm_mark_failed s (some error)
    | Except.ok receive_message =>
      if receive_message.category ≠ 0xA ∨ receive_message.command ≠ 0x3 then
        fpi_ssm_mark_failed s (some (GError.device Goodix5395InitState.CHECK_SENSOR
          "Not a register read message for command %02x"
          [FormatArg.num receive_message.command.val]))
      else
        let otp := receive_message.payload
        if ¬ (verify_otp_hash otp goodix_5395_otp_hash = true) then
          fpi_ssm_mark_failed s (some (GError.device Goodix5395InitState.CHECK_SENSOR
            "OTP hash incorrect %s" [FormatArg.text otp]))
        else
          let s := { s with calibration_params := some receive_message.payload }
          fpi_ssm_next_state s

/-- Size of `GoodixProductionRead`: a status byte, a 16-bit read type and a 16-bit
payload size (the struct is declared in a header that is not among the sources; the
layout is the packed little-endian one of the wire record). -/
def sizeof_GoodixProductionRead : Nat := 5

/-- Field `status` of the record that starts at `data`: the byte at offset 0. -/
def read_status (data : List Byte) : Option Nat :=
  match mem_read data 0 with
  | some b => some b.val
  | none => none

/-- Field `message_read_type` of the record that starts at `data`: the bytes at offsets
1 and 2, little-endian. -/
def read_message_read_type (data : List Byte) : Option Nat :=
  match mem_read data 1, mem_read data 2 with
  | some lo, some hi => some (lo.val + 256 * hi.val)
  | _, _ => none

/-- Field `payload_size` of the record that starts at `data`: the bytes at offsets 3
and 4, little-endian. -/
def read_payload_size (data : List Byte) : Option Nat :=
  match mem_read data 3, mem_read data 4 with
  | some lo, some hi => some (lo.val + 256 * hi.val)
  | _, _ => none

/-- The value of `receive_message->payload->len - sizeof(GoodixProductionRead)`: an
unsigned subtraction in `size_t`, 64 bits wide. -/
def len_minus_header (len : Nat) : Nat :=
  (len + 18446744073709551616 - sizeof_GoodixProductionRead) % 18446744073709551616

/-- The handler `fpi_device_goodixtls5395_check_psk(dev, ssm)`.  The three header fields
are read in the order of the code (lines 218, 222, 226), then `memcmp` reads the 32
bytes behind the header (line 237); none of the reads is preceded by a test of the
payload length. -/
def fpi_device_goodixtls5395_check_psk (send_result : Option GError)
    (receive_result : Except GError GoodixMessage) (s : Session) : Session :=
  let check_psk_message := fpi_goodix_protocol_create_message 0xE 2 [0x03, 0xb0, 0x00, 0x00]
  let s := emit s (Event.send check_psk_message 500)
  match send_result with
  | some error => fpi_ssm_mark_failed s (some error)
  | none =>
    let s := emit s (Event.receive_data 1000)
    match receive_result with
    | Except.error error => fpi_ssm_mark_failed s (some error)
    | Except.ok receive_message =>
      if receive_message.category = 0xE ∧ receive_message.command = 2 then
        let data := receive_message.payload
        match read_status data with
        | none => emit s Event.out_of_bounds_read
        | some status =>
          if status ≠ 0x00 then
            fpi_ssm_mark_failed s (some (GError.device Goodix5395InitState.CHECK_PSK
              "Not a production read reply for command %02x"
              [FormatArg.num receive_message.command.val]))
          else
            match read_message_read_type data with
            | none => emit s Event.out_of_bounds_read
            | some message_read_type =>
              if message_read_type ≠ 0xb003 then
                fpi_ssm_mark_failed s (some (GError.device Goodix5395InitState.CHECK_PSK
                  "Wrong read type in reply, expected: %02x, received: %02x"
                  [FormatArg.num 0xb003, FormatArg.num message_read_type]))
              else
                match read_payload_size data with
                | none => emit s Event.out_of_bounds_read
                | some payload_size =>
                  if payload_size ≠ len_minus_header data.length then
                    fpi_ssm_mark_failed s
                      (some (GError.device Goodix5395InitState.CHECK_PSK
                        "Payload does not match reported size: %lu != %d"
                        [FormatArg.num (len_minus_header data.length),
                         FormatArg.num payload_size]))
                  else
                    let psk := g_malloc0 32
                    let calculate_sha256 := crypto_utils_sha256_hash psk
                    match memcmp_eq_zero data sizeof_GoodixProductionRead calculate_sha256
                        calculate_sha256.length with
                    | none => emit s Event.out_of_bounds_read
                    | some equal =>
                      let s := { s with is_psk_valid := equal }
                      fpi_ssm_next_state s
      else
        fpi_ssm_mark_failed s (some (GError.device Goodix5395InitState.CHECK_PSK
          "Not read reply for command %02x" [FormatArg.num receive_message.command.val]))

/-- The handler `fpi_device_goodixtls5395_write_psk(dev, ssm)`.  `payload_2` and
`payload_3` are the two bytes of the local array that the code never assigns.  The
first byte of the reply payload is read (line 271) without a test of its length. -/
def fpi_device_goodixtls5395_write_psk (payload_2 payload_3 : Byte)
    (send_result : Option GError) (receive_result : Except GError GoodixMessage)
    (s : Session) : Session :=
  if s.is_psk_valid = true then
    fpi_ssm_next_state s
  else
    let psk_white_box_length : Nat := goodix5395_psk_white_box.length
    let payload : List Byte :=
      [0x02, 0xb0, payload_2, payload_3, Fin.ofNat psk_white_box_length]
        ++ goodix5395_psk_white_box
    let write_psk_message := fpi_goodix_protocol_create_message 0xE 1 payload
    let s := emit s (Event.send write_psk_message 500)
    match send_result with
    | some error => fpi_ssm_mark_failed s (some error)
    | none =>
      let s := emit s (Event.receive_data 1000)
      match receive_result with
      | Except.error error => fpi_ssm_mark_failed s (some error)
      | Except.ok receive_message =>
        match mem_read receive_message.payload 0 with
        | none => emit s Event.out_of_bounds_read
        | some first =>
          if first ≠ 0 then
            fpi_ssm_mark_failed s (some (GError.device Goodix5395InitState.WRITE_PSK
              "Production write MCU failed. Command: 0%02x"
              [FormatArg.num receive_message.command.val]))
          else
            fpi_ssm_next_state s

/-- Modelled from the spec: `fpi_goodix_device_gtls_connection(dev, ssm)`, the external
secure-channel establisher: it advances on success and fails the machine with its own
error otherwise. -/
def fpi_goodix_device_gtls_connection (result : Option GError) (s : Session) : Session :=
  let s := emit s Event.gtls_connection
  match result with
  | none => fpi_ssm_next_state s
  | some error => fpi_ssm_mark_failed s (some error)

/-- The helper `fpi_goodix5395_upload_config(dev, ssm)`.  Its `FAIL_SSM_AND_RETURN` leaves
the helper; the helper returns `void` either way. -/
def fpi_goodix5395_upload_config (upload_result : Option GError) (s : Session) : Session :=
  let s := emit s Event.upload_config
  match upload_result with
  | some error => fpi_ssm_mark_failed s (some error)
  | none => s

/-- What the device layer returns to `fpi_goodix5395_update_all_base`: the outcome of the
configuration upload, the five captures, the two validators of goodix_device.c
(`fpi_goodix_device_is_fdt_base_valid`, `fpi_goodix_device_validate_base_img`) and
`fpi_device_generate_fdt_base`. -/
structure UpdateAllBaseEnv where
  upload_result : Option GError
  fdt_data_tx_enabled : List Byte
  image_tx_enabled : List Byte
  fdt_data_tx_disabled : List Byte
  image_tx_disabled : List Byte
  fdt_data_tx_enabled_2 : List Byte
  is_fdt_base_valid : List Byte → List Byte → Bool
  validate_base_img : List Byte → List Byte → Bool
  generate_fdt_base : List Byte → List Byte

/-- The handler `fpi_goodix5395_update_all_base(dev, ssm)`. -/
def fpi_goodix5395_update_all_base (env : UpdateAllBaseEnv) (s : Session) : Session :=
  let s := fpi_goodix5395_upload_config env.upload_result s
  let s := emit s (Event.get_fdt_base_with_tx true)
  let fdt_data_tx_enabled := env.fdt_data_tx_enabled
  let s := emit s (Event.get_image true true)
  let image_tx_enabled := env.image_tx_enabled
  let s := emit s (Event.get_fdt_base_with_tx false)
  let fdt_data_tx_disabled := env.fdt_data_tx_disabled
  let fdt_base_valid := env.is_fdt_base_valid fdt_data_tx_enabled fdt_data_tx_disabled
  if fdt_base_valid = false then
    fpi_ssm_mark_failed s (some (GError.device Goodix5395InitState.UPDATE_ALL_BASE
      "Invalid FDT" [FormatArg.null]))
  else
    let s := emit s (Event.get_image false true)
    let image_tx_disabled := env.image_tx_disabled
    if env.validate_base_img image_tx_enabled image_tx_disabled = false then
      fpi_ssm_mark_failed s (some (GError.device Goodix5395InitState.UPDATE_ALL_BASE
        "Invalid base image" [FormatArg.null]))
    else
      let s := emit s (Event.get_fdt_base_with_tx true)
      let fdt_data_tx_enabled_2 := env.fdt_data_tx_enabled_2
      let fdt_base_valid := env.is_fdt_base_valid fdt_data_tx_enabled_2 fdt_data_tx_disabled
      if fdt_base_valid = false then
        fpi_ssm_mark_failed s (some (GError.device Goodix5395InitState.UPDATE_ALL_BASE
          "Invalid FDT" [FormatArg.null]))
      else
        let s := { s with fdt_bases := some (env.generate_fdt_base fdt_data_tx_enabled) }
        let s := { s with calibration_image := some image_tx_enabled }
        fpi_ssm_next_state s

/-- The handler `fpi_goodix5395_set_sleep_mode(dev, ssm)`.  `sleep_error` is what
`fpi_goodix_device_set_sleep_mode` left in `error`. -/
def fpi_goodix5395_set_sleep_mode (sleep_error : Option GError) (s : Session) : Session :=
  let s := emit s Event.set_sleep_mode
  match sleep_error with
  | some _ =>
    fpi_ssm_mark_failed s (some (GError.device Goodix5395InitState.UPDATE_ALL_BASE
      "Error set sleep mode" [FormatArg.null]))
  | none => fpi_ssm_next_state s

/-- Everything the world answers during one bring-up, handler by handler. -/
structure BringUpEnv where
  ping_send : Option GError
  firmware_send : Option GError
  firmware_receive : Except GError GoodixMessage
  decode_u32 : List Byte → Nat
  enable_send : Option GError
  enable_receive : Except GError GoodixMessage
  verify_otp_hash : List Byte → List Byte → Bool
  sensor_send : Option GError
  sensor_receive : Except GError GoodixMessage
  psk_send : Option GError
  psk_receive : Except GError GoodixMessage
  write_payload_2 : Byte
  write_payload_3 : Byte
  write_send : Option GError
  write_receive : Except GError GoodixMessage
  gtls_result : Option GError
  update_all_base : UpdateAllBaseEnv
  sleep_error : Option GError

/-- The dispatcher `fpi_goodix5395_run_init_state(ssm, dev)`: a switch on the current
state; a value outside the enum falls through the switch. -/
def fpi_goodix5395_run_init_state (env : BringUpEnv) (s : Session) : Session :=
  match s.ssm.cur_state with
  | 0 => fpi_device_goodixtls5395_ping env.ping_send s
  | 1 => fpi_device_goodixtls5395_check_firmware_version env.firmware_send
      env.firmware_receive s
  | 2 => fpi_device_goodixtls5395_device_enable env.decode_u32 env.enable_send
      env.enable_receive s
  | 3 => fpi_device_goodixtls5395_check_sensor env.verify_otp_hash env.sensor_send
      env.sensor_receive s
  | 4 => fpi_device_goodixtls5395_check_psk env.psk_send env.psk_receive s
  | 5 => fpi_device_goodixtls5395_write_psk env.write_payload_2 env.write_payload_3
      env.write_send env.write_receive s
  | 6 => fpi_goodix_device_gtls_connection env.gtls_result s
  | 7 => fpi_goodix5395_update_all_base env.update_all_base s
  | 8 => fpi_goodix5395_set_sleep_mode env.sleep_error s
  | _ => s

/-- Modelled from the spec: the run of a started machine (fpi-ssm.c is not among the
sources).  The handler of the current state is called; when it has moved the machine to
another state and not completed it, the handler of that state is called next.  One unit
of fuel per handler call. -/
def fpi_ssm_run (handler : Session → Session) : Nat → Session → Session
  | 0, s => s
  | fuel + 1, s =>
    if s.ssm.completed then s
    else
      let s1 := handler s
      if s1.ssm.completed ∨ s1.ssm.cur_state = s.ssm.cur_state then s1
      else fpi_ssm_run handler fuel s1

/-- Modelled from the spec: `fpi_ssm_start(ssm, callback)` with the NULL callback the
driver passes: the machine runs and nobody is told how it ended. -/
def fpi_ssm_start (machine : FpiSsm) (handler : Session → Session) (s : Session) : Session :=
  fpi_ssm_run handler machine.nr_states { s with ssm := machine }

/-- The function `fpi_device_goodixtls5395_img_open(img_dev)`.  `init_ok` is what
`fpi_goodix_device_init_device` returns and `init_error` what it leaves in `error`. -/
def fpi_device_goodixtls5395_img_open (init_ok : Bool) (init_error : Option GError)
    (env : BringUpEnv) (s : Session) : Session :=
  let error := init_error
  if init_ok = true then
    let s := fpi_ssm_start (fpi_ssm_new DEVICE_INIT_NUM_STATES)
      (fpi_goodix5395_run_init_state env) s
    emit s (Event.open_complete error)
  else
    emit s (Event.open_complete none)

/-! ## Observations on a trace -/

/-- The event is a verdict on the current state: advance or fail. -/
def Event.is_signal : Event → Bool
  | Event.next_state => true
  | Event.mark_failed _ => true
  | _ => false

/-- The event is a call to the transport or the device layer. -/
def Event.is_exchange : Event → Bool
  | Event.next_state => false
  | Event.mark_failed _ => false
  | Event.open_complete _ => false
  | Event.out_of_bounds_read => false
  | _ => true

/-- The event marks the machine failed. -/
def Event.is_failure : Event → Bool
  | Event.mark_failed _ => true
  | _ => false

/-- Number of verdicts in a trace. -/
def signal_count (t : List Event) : Nat := (t.filter Event.is_signal).length

/-- No transport or device call follows a failure verdict in the trace. -/
def quiet_after_failure : List Event → Bool
  | [] => true
  | e :: rest =>
    if e.is_failure then rest.all (fun x => !x.is_exchange) && quiet_after_failure rest
    else quiet_after_failure rest

/-- The handler gave one verdict and touched nothing after a failure. -/
def signals_once (t : List Event) : Bool :=
  decide (signal_count t = 1) && quiet_after_failure t

/-- The events a handler added when it took `s` to `s1`. -/
def new_events (s s1 : Session) : List Event := s1.trace.drop s.trace.length

/-- The handler took `s` to `s1` by making the calls `calls` and then advancing. -/
def advanced (s s1 : Session) (calls : List Event) : Prop :=
  s1.trace = s.trace ++ calls ++ [Event.next_state]

/-- The handler took `s` to `s1` by making the calls `calls` and then failing the machine
with `error`, after which it made no call. -/
def failed_with (s s1 : Session) (calls : List Event) (error : Option GError) : Prop :=
  s1.trace = s.trace ++ calls ++ [Event.mark_failed error]

/-! ## The quantities the specification speaks of -/

/-- Sample `k` of a baseline: the 16-bit value read little-endian from bytes `2k` and
`2k + 1`. -/
def le16_sample (a : List Byte) (k : Nat) : Nat :=
  (a.getD (2 * k) 0).val + 256 * (a.getD (2 * k + 1) 0).val

/-- The per-sample delta `|(a_k >> 1) - (b_k >> 1)|`. -/
def sample_delta (a b : List Byte) (k : Nat) : Int :=
  |((le16_sample a k >>> 1 : Nat) : Int) - ((le16_sample b k >>> 1 : Nat) : Int)|

/-- A production-read record as the specification describes it: a header of status,
read type and payload size, and the data region that follows. -/
structure ProductionReadRecord where
  status : Nat
  read_type : Nat
  payload_size : Nat
  data : List Byte
  deriving DecidableEq, Repr

/-- A reply payload read as a record; a payload shorter than the header holds none. -/
def parse_production_read : List Byte → Option ProductionReadRecord
  | st :: t0 :: t1 :: z0 :: z1 :: data =>
    some { status := st.val, read_type := t0.val + 256 * t1.val,
           payload_size := z0.val + 256 * z1.val, data := data }
  | _ => none

/-- The record is one the specification accepts: status 0, read type 0xB003 and a
payload size equal to the length of the payload less the header. -/
def record_accepted (payload : List Byte) : Prop :=
  ∃ r, parse_production_read payload = some r ∧ r.status = 0 ∧ r.read_type = 0xB003
    ∧ (r.payload_size : Int) = (payload.length : Int) - (sizeof_GoodixProductionRead : Int)

/-- The request of CHECK_FIRMWARE. -/
def firmware_query : GoodixMessage := { category := 0xA, command := 4, payload := [0, 0] }

/-- The request of CHECK_PSK. -/
def psk_query : GoodixMessage := { category := 0xE, command := 2, payload := [0x03, 0xb0, 0, 0] }

/-- The digest of 32 zero bytes, as published for SHA-256. -/
def zero_seed_digest : List Byte :=
  [0x66, 0x68, 0x7a, 0xad, 0xf8, 0x62, 0xbd, 0x77, 0x6c, 0x8f, 0xc1, 0x8b, 0x8e, 0x9f, 0x8e, 0x20,
   0x08, 0x97, 0x14, 0x85, 0x6e, 0xe2, 0x33, 0xb3, 0x90, 0x2a, 0x59, 0x1d, 0x0d, 0x5f, 0x29, 0x25]

/-! ## Concrete worlds -/

/-- A device layer whose captures are empty and whose validators accept everything. -/
def calibration_all_valid : UpdateAllBaseEnv :=
  { upload_result := none, fdt_data_tx_enabled := [], image_tx_enabled := [],
    fdt_data_tx_disabled := [], image_tx_disabled := [], fdt_data_tx_enabled_2 := [],
    is_fdt_base_valid := fun _ _ => true, validate_base_img := fun _ _ => true,
    generate_fdt_base := fun x => x }

/-- The end-to-end scenario of the specification: every exchange succeeds, the firmware
is the first accepted one, the chip ID is 0x220C00, the OTP is accepted, the device
reports the digest of the zero seed, the secure channel establishes, calibration passes
and the sleep command succeeds. -/
def world_all_good : BringUpEnv :=
  { ping_send := none,
    firmware_send := none,
    firmware_receive := Except.ok { category := 0xA, command := 4,
                                    payload := FIRMWARE_VERSION_1 },
    decode_u32 := fun _ => 0x220C00,
    enable_send := none,
    enable_receive := Except.ok { category := 0x8, command := 0x1, payload := [] },
    verify_otp_hash := fun _ _ => true,
    sensor_send := none,
    sensor_receive := Except.ok { category := 0xA, command := 0x3, payload := [] },
    psk_send := none,
    psk_receive := Except.ok { category := 0xE, command := 2,
                               payload := [0, 0x03, 0xb0, 32, 0] ++ zero_seed_digest },
    write_payload_2 := 0,
    write_payload_3 := 0,
    write_send := none,
    write_receive := Except.ok { category := 0xE, command := 1, payload := [0] },
    gtls_result := none,
    update_all_base := calibration_all_valid,
    sleep_error := none }

/-- The world of `world_all_good` in which the ping cannot be sent. -/
def world_ping_fails : BringUpEnv :=
  { world_all_good with ping_send := some (GError.foreign 1) }

/-- The world of `world_all_good` in which the configuration upload fails. -/
def world_upload_fails : BringUpEnv :=
  { world_all_good with
      update_all_base := { calibration_all_valid with upload_result := some (GError.foreign 1),
                                                      fdt_data_tx_enabled := [1, 0],
                                                      image_tx_enabled := [7] } }

/-- A session that has reached UPDATE_ALL_BASE with nothing calibrated yet. -/
def session_at_update_all_base : Session :=
  { Session.fresh with ssm := { fpi_ssm_new DEVICE_INIT_NUM_STATES with cur_state := 7 } }

/-- An image of the sensor size with every pixel equal to `v`. -/
def flat_image (v : Byte) : List Byte := List.replicate (SENSOR_WIDTH * SENSOR_HEIGHT) v

/-- The request of DEVICE_ENABLE. -/
def enable_command : GoodixMessage :=
  { category := 0x8, command := 0x1, payload := [0, 0, 0, 4] }

/-- The decoded 32-bit chip ID of a reply payload: what `decode_u32` gives, as an unsigned
32-bit value. -/
def decoded_chip_id (decode_u32 : List Byte → Nat) (payload : List Byte) : Nat :=
  decode_u32 payload % 4294967296


end Goodix5395

/-! # Theorems -/

namespace Goodix5395

/-! ## Lemmas on the library functions -/

/-- A byte that is not NUL has a value that is not 0. -/
theorem byte_val_ne_zero (b : Byte) (h : b ≠ 0) : (b.val : Int) ≠ 0 := by
  intro hv
  apply h
  apply Fin.ext
  simpa using hv

/-- Comparing the copy `g_strndup` makes of a payload with a literal that holds no NUL
gives 0 exactly when the payload, cut at its first NUL, is the literal. -/
theorem strcmp_g_strndup_literal (p : List Byte) :
    ∀ lit : List Byte, (∀ c ∈ lit, c ≠ 0) →
      (g_strcmp0 (g_strndup p p.length) (c_literal lit) = 0 ↔ c_string_chars p = lit) := by
  induction p with
  | nil =>
    intro lit hlit
    cases lit with
    | nil => simp [g_strcmp0, g_strndup, c_literal, c_string_chars, strncpy, strcmp]
    | cons b l =>
      have hb : b ≠ 0 := hlit b (by simp)
      have hb2 : ¬ (0 : Byte) = b := fun h => hb h.symm
      have hv := byte_val_ne_zero b hb
      simp [g_strcmp0, g_strndup, c_literal, c_string_chars, strncpy, strcmp, hb2, hv]
  | cons c cs ih =>
    intro lit hlit
    by_cases hc : c = 0
    · subst hc
      cases lit with
      | nil =>
        simp [g_strcmp0, g_strndup, c_literal, c_string_chars, strncpy, strcmp,
          List.replicate_succ]
      | cons b l =>
        have hb : b ≠ 0 := hlit b (by simp)
        have hb2 : ¬ (0 : Byte) = b := fun h => hb h.symm
        have hv := byte_val_ne_zero b hb
        simp [g_strcmp0, g_strndup, c_literal, c_string_chars, strncpy, strcmp,
          List.replicate_succ, hb2, hv]
    · have hcv := byte_val_ne_zero c hc
      cases lit with
      | nil => simp [g_strcmp0, g_strndup, c_literal, c_string_chars, strncpy, strcmp, hc, hcv]
      | cons b l =>
        by_cases hcb : c = b
        · subst hcb
          have ih2 := ih l (fun x hx => hlit x (by simp [hx]))
          simp only [g_strcmp0, g_strndup, c_literal, c_string_chars] at ih2
          simp [g_strcmp0, g_strndup, c_literal, c_string_chars, strncpy, strcmp, hc, ih2]
        · have hd : (c.val : Int) - (b.val : Int) ≠ 0 := by
            intro h
            apply hcb
            apply Fin.ext
            have : (c.val : Int) = (b.val : Int) := by linarith
            exact_mod_cast this
          simp [g_strcmp0, g_strndup, c_literal, c_string_chars, strncpy, strcmp, hc, hcb, hd]

/-- The byte lists of the two firmware strings are the ASCII bytes of the source text. -/
theorem firmware_versions_text :
    ascii_bytes FIRMWARE_VERSION_1_text = FIRMWARE_VERSION_1
      ∧ ascii_bytes FIRMWARE_VERSION_2_text = FIRMWARE_VERSION_2 := by
  constructor <;> decide

/-- Neither firmware string holds a NUL. -/
theorem firmware_versions_no_nul :
    (∀ c ∈ FIRMWARE_VERSION_1, c ≠ 0) ∧ (∀ c ∈ FIRMWARE_VERSION_2, c ≠ 0) := by
  constructor <;> decide!

/-- The SHA-256 model gives the published digest of 32 zero bytes. -/
theorem sha256_zero_seed : crypto_utils_sha256_hash (g_malloc0 32) = zero_seed_digest := by
  decide!

/-- The SHA-256 model gives the published digest of "abc". -/
theorem sha256_abc : crypto_utils_sha256_hash [0x61, 0x62, 0x63] =
    [0xba, 0x78, 0x16, 0xbf, 0x8f, 0x01, 0xcf, 0xea, 0x41, 0x41, 0x40, 0xde, 0x5d, 0xae, 0x22, 0x23,
     0xb0, 0x03, 0x61, 0xa3, 0x96, 0x17, 0x7a, 0x9c, 0xb4, 0x10, 0xff, 0x61, 0xf2, 0x00, 0x15, 0xad] := by
  decide!

/-! ## FDT baseline validator -/

/-- The two bytes the loop combines with `|` and `<<` are the little-endian value. -/
theorem byte_pair_lor (x y : Byte) :
    (x.val ||| (y.val <<< 8)) % 65536 = x.val + 256 * y.val := by
  have hx := x.isLt
  have hy := y.isLt
  have h := Nat.mul_add_lt_is_or (i := 8) (b := x.val) (by simp) y.val
  rw [Nat.shiftLeft_eq, Nat.lor_comm, Nat.mul_comm, ← h]
  norm_num
  omega

/-- The `delta` the loop computes at `i = 2 * m` is the delta of sample `m`. -/
theorem fdt_loop_step_delta (d1 d2 : List Byte) (m : Nat) :
    ((Int.natAbs
        ((((((d1.getD (2 * m) 0).val ||| ((d1.getD (2 * m + 1) 0).val <<< 8)) % 65536) >>> 1
            : Nat) : Int)
          - (((((d2.getD (2 * m) 0).val ||| ((d2.getD (2 * m + 1) 0).val <<< 8)) % 65536) >>> 1
            : Nat) : Int)) : Int) % 65536)
      = sample_delta d1 d2 m := by
  rw [byte_pair_lor, byte_pair_lor]
  unfold sample_delta le16_sample
  have h1 := (d1.getD (2 * m) 0).isLt
  have h2 := (d1.getD (2 * m + 1) 0).isLt
  have h3 := (d2.getD (2 * m) 0).isLt
  have h4 := (d2.getD (2 * m + 1) 0).isLt
  simp only [Nat.shiftRight_eq_div_pow, Int.natCast_natAbs]
  have e2 : |((((d1.getD (2 * m) 0).val + 256 * (d1.getD (2 * m + 1) 0).val) / 2 ^ 1 : Nat) : Int)
      - ((((d2.getD (2 * m) 0).val + 256 * (d2.getD (2 * m + 1) 0).val) / 2 ^ 1 : Nat) : Int)|
        < 65536 := by
    rw [abs_lt]; constructor <;> omega
  have e := abs_nonneg
    (((((d1.getD (2 * m) 0).val + 256 * (d1.getD (2 * m + 1) 0).val) / 2 ^ 1 : Nat) : Int)
      - ((((d2.getD (2 * m) 0).val + 256 * (d2.getD (2 * m + 1) 0).val) / 2 ^ 1 : Nat) : Int))
  omega

/-- With enough fuel the loop started at sample `m` returns true exactly when every
sample from `m` on is within `max_delta`. -/
theorem fdt_loop_iff (d1 d2 : List Byte) (n : Nat) (max_delta : Int) :
    ∀ (fuel m : Nat), n ≤ fuel + m →
      (fdt_loop d1 d2 (2 * n) max_delta fuel (2 * m) = true ↔
        ∀ k, m ≤ k → k < n → sample_delta d1 d2 k ≤ max_delta) := by
  intro fuel
  induction fuel with
  | zero =>
    intro m h
    simp only [fdt_loop, true_iff]
    intro k h1 h2
    omega
  | succ f ih =>
    intro m h
    unfold fdt_loop
    by_cases hm : 2 * m < 2 * n
    · simp only [hm, if_true]
      rw [fdt_loop_step_delta]
      by_cases hd : sample_delta d1 d2 m > max_delta
      · simp only [hd, if_true]
        constructor
        · intro hf; cases hf
        · intro hall
          have := hall m (le_refl _) (by omega)
          omega
      · simp only [hd, if_false]
        have e : 2 * m + 2 = 2 * (m + 1) := by ring
        rw [e, ih (m + 1) (by omega)]
        constructor
        · intro hall k hk1 hk2
          by_cases hkm : k = m
          · subst hkm; omega
          · exact hall k (by omega) hk2
        · intro hall k hk1 hk2
          exact hall k (by omega) hk2
    · simp only [hm, if_false, true_iff]
      intro k h1 h2
      omega

/-- C1.  For byte arrays `a` and `b`, `a` of even length, and every `max_delta`,
`fpi_goodix5395_is_fdt_base_valid a b max_delta` is true exactly when the arrays have
the same length and every sample delta `|(a_k >> 1) - (b_k >> 1)|` is at most
`max_delta`; arrays of different lengths give false; and a sample whose delta is
`max_delta + 1` gives false.  (An array of another length than `a` is rejected before
any byte is read, so the evenness of `b` is not needed.) -/
theorem fdt_base_is_valid_iff (a b : List Byte) (max_delta : Int)
    (ha : a.length % 2 = 0) :
    (fpi_goodix5395_is_fdt_base_valid a b max_delta = true ↔
      a.length = b.length ∧ ∀ k, k < a.length / 2 → sample_delta a b k ≤ max_delta)
    ∧ (a.length ≠ b.length → fpi_goodix5395_is_fdt_base_valid a b max_delta = false)
    ∧ (∀ k, k < a.length / 2 → sample_delta a b k = max_delta + 1 →
        fpi_goodix5395_is_fdt_base_valid a b max_delta = false) := by
  have hlen : a.length = 2 * (a.length / 2) := by omega
  have key : fpi_goodix5395_is_fdt_base_valid a b max_delta = true ↔
      a.length = b.length ∧ ∀ k, k < a.length / 2 → sample_delta a b k ≤ max_delta := by
    unfold fpi_goodix5395_is_fdt_base_valid
    by_cases hl : a.length = b.length
    · simp only [hl, ne_eq, not_true_eq_false, if_false, true_and]
      rw [← hl]
      have h := fdt_loop_iff a b (a.length / 2) max_delta a.length 0 (by omega)
      rw [← hlen] at h
      rw [show (0 : Nat) = 2 * 0 from rfl, h]
      constructor
      · intro hall k hk; exact hall k (Nat.zero_le _) hk
      · intro hall k _ hk; exact hall k hk
    · simp [hl]
  refine ⟨key, ?_, ?_⟩
  · intro hne
    cases hr : fpi_goodix5395_is_fdt_base_valid a b max_delta with
    | false => rfl
    | true => exact absurd (key.mp hr).1 hne
  · intro k hk hd
    cases hr : fpi_goodix5395_is_fdt_base_valid a b max_delta with
    | false => rfl
    | true =>
      have := (key.mp hr).2 k hk
      omega

/-- Witness of C1: two baselines of two samples each, deltas 1 and 2, threshold 2. -/
theorem fdt_base_is_valid_iff_witness :
    (fpi_goodix5395_is_fdt_base_valid [0, 1, 4, 0] [2, 1, 0, 0] 2 = true ↔
      ([0, 1, 4, 0] : List Byte).length = ([2, 1, 0, 0] : List Byte).length
        ∧ ∀ k, k < ([0, 1, 4, 0] : List Byte).length / 2 →
            sample_delta [0, 1, 4, 0] [2, 1, 0, 0] k ≤ 2)
    ∧ (([0, 1, 4, 0] : List Byte).length ≠ ([2, 1, 0, 0] : List Byte).length →
        fpi_goodix5395_is_fdt_base_valid [0, 1, 4, 0] [2, 1, 0, 0] 2 = false)
    ∧ (∀ k, k < ([0, 1, 4, 0] : List Byte).length / 2 →
        sample_delta [0, 1, 4, 0] [2, 1, 0, 0] k = 2 + 1 →
        fpi_goodix5395_is_fdt_base_valid [0, 1, 4, 0] [2, 1, 0, 0] 2 = false) :=
  fdt_base_is_valid_iff [0, 1, 4, 0] [2, 1, 0, 0] 2 (by decide)


/-! ## Lemmas on the session -/

@[simp] theorem emit_trace (s : Session) (e : Event) : (emit s e).trace = s.trace ++ [e] := rfl

@[simp] theorem emit_is_psk_valid (s : Session) (e : Event) :
    (emit s e).is_psk_valid = s.is_psk_valid := rfl

@[simp] theorem emit_fdt_bases (s : Session) (e : Event) :
    (emit s e).fdt_bases = s.fdt_bases := rfl

@[simp] theorem emit_calibration_image (s : Session) (e : Event) :
    (emit s e).calibration_image = s.calibration_image := rfl

@[simp] theorem emit_ssm (s : Session) (e : Event) : (emit s e).ssm = s.ssm := rfl

@[simp] theorem next_state_trace (s : Session) :
    (fpi_ssm_next_state s).trace = s.trace ++ [Event.next_state] := by
  unfold fpi_ssm_next_state
  by_cases h : s.ssm.completed = true <;> simp [h]

@[simp] theorem next_state_is_psk_valid (s : Session) :
    (fpi_ssm_next_state s).is_psk_valid = s.is_psk_valid := by
  unfold fpi_ssm_next_state
  by_cases h : s.ssm.completed = true <;> simp [h]

@[simp] theorem next_state_fdt_bases (s : Session) :
    (fpi_ssm_next_state s).fdt_bases = s.fdt_bases := by
  unfold fpi_ssm_next_state
  by_cases h : s.ssm.completed = true <;> simp [h]

@[simp] theorem next_state_calibration_image (s : Session) :
    (fpi_ssm_next_state s).calibration_image = s.calibration_image := by
  unfold fpi_ssm_next_state
  by_cases h : s.ssm.completed = true <;> simp [h]

@[simp] theorem mark_failed_trace (s : Session) (e : Option GError) :
    (fpi_ssm_mark_failed s e).trace = s.trace ++ [Event.mark_failed e] := by
  unfold fpi_ssm_mark_failed
  by_cases h : s.ssm.completed = true <;> simp [h]

@[simp] theorem mark_failed_is_psk_valid (s : Session) (e : Option GError) :
    (fpi_ssm_mark_failed s e).is_psk_valid = s.is_psk_valid := by
  unfold fpi_ssm_mark_failed
  by_cases h : s.ssm.completed = true <;> simp [h]

@[simp] theorem mark_failed_fdt_bases (s : Session) (e : Option GError) :
    (fpi_ssm_mark_failed s e).fdt_bases = s.fdt_bases := by
  unfold fpi_ssm_mark_failed
  by_cases h : s.ssm.completed = true <;> simp [h]

@[simp] theorem mark_failed_calibration_image (s : Session) (e : Option GError) :
    (fpi_ssm_mark_failed s e).calibration_image = s.calibration_image := by
  unfold fpi_ssm_mark_failed
  by_cases h : s.ssm.completed = true <;> simp [h]

/-! ## CHECK_FIRMWARE -/

/-- The characters of the copy `g_strndup` makes are the characters of the payload up
to its first NUL. -/
theorem c_string_chars_g_strndup (p : List Byte) :
    c_string_chars (g_strndup p p.length) = c_string_chars p := by
  induction p with
  | nil => simp [g_strndup, c_string_chars, strncpy]
  | cons c cs ih =>
    by_cases hc : c = 0
    · simp [g_strndup, c_string_chars, strncpy, hc, List.replicate_succ]
    · simp only [g_strndup, c_string_chars, decide_not] at ih
      simp [g_strndup, c_string_chars, strncpy, hc, ih]

/-- The test of CHECK_FIRMWARE on the copied payload, in terms of the payload. -/
theorem firmware_test_iff (payload : List Byte) :
    (g_strcmp0 (g_strndup payload payload.length) (c_literal FIRMWARE_VERSION_1) = 0
      ∨ g_strcmp0 (g_strndup payload payload.length) (c_literal FIRMWARE_VERSION_2) = 0)
    ↔ (c_string_chars payload = FIRMWARE_VERSION_1
      ∨ c_string_chars payload = FIRMWARE_VERSION_2) := by
  rw [strcmp_g_strndup_literal payload _ firmware_versions_no_nul.1,
    strcmp_g_strndup_literal payload _ firmware_versions_no_nul.2]

/-- What CHECK_FIRMWARE does on a reply of category 0xA and command 4, by the payload
cut at its first NUL. -/
theorem check_firmware_version_outcome (payload : List Byte) (s : Session) :
    (advanced s
        (fpi_device_goodixtls5395_check_firmware_version none
          (Except.ok { category := 0xA, command := 4, payload := payload }) s)
        [Event.send firmware_query 500, Event.receive_data 2000]
      ↔ (c_string_chars payload = FIRMWARE_VERSION_1
          ∨ c_string_chars payload = FIRMWARE_VERSION_2))
    ∧ (¬ (c_string_chars payload = FIRMWARE_VERSION_1
          ∨ c_string_chars payload = FIRMWARE_VERSION_2) →
        failed_with s
          (fpi_device_goodixtls5395_check_firmware_version none
            (Except.ok { category := 0xA, command := 4, payload := payload }) s)
          [Event.send firmware_query 500, Event.receive_data 2000]
          (some (GError.device Goodix5395InitState.CHECK_FIRMWARE
            "Firmware %s version is not supported."
            [FormatArg.text (c_string_chars payload)]))) := by
  have ht := firmware_test_iff payload
  by_cases h : (c_string_chars payload = FIRMWARE_VERSION_1
      ∨ c_string_chars payload = FIRMWARE_VERSION_2)
  · have h2 := ht.mpr h
    simp [advanced, failed_with, fpi_device_goodixtls5395_check_firmware_version,
      fpi_goodix_protocol_create_message, firmware_query, h, h2]
  · have h2 : ¬ _ := fun x => h (ht.mp x)
    simp [advanced, failed_with, fpi_device_goodixtls5395_check_firmware_version,
      fpi_goodix_protocol_create_message, firmware_query, h, h2, c_string_chars_g_strndup]

/-- C7, as amended.  For every reply of category 0xA and command 4 and every payload,
CHECK_FIRMWARE advances exactly when the bytes of the payload before its first NUL (all
of it when it holds none) are "GF5288_HTSEC_APP_10011" or "GF5288_HTSEC_APP_10020";
for any other payload it fails the machine with the CHECK_FIRMWARE error, and the
failure is the last thing it does: the trace holds the query, the receive and the
failure, nothing more. -/
theorem check_firmware_version_c_string (payload : List Byte) (s : Session) :
    (advanced s
        (fpi_device_goodixtls5395_check_firmware_version none
          (Except.ok { category := 0xA, command := 4, payload := payload }) s)
        [Event.send firmware_query 500, Event.receive_data 2000]
      ↔ (c_string_chars payload = FIRMWARE_VERSION_1
          ∨ c_string_chars payload = FIRMWARE_VERSION_2))
    ∧ (¬ (c_string_chars payload = FIRMWARE_VERSION_1
          ∨ c_string_chars payload = FIRMWARE_VERSION_2) →
        failed_with s
          (fpi_device_goodixtls5395_check_firmware_version none
            (Except.ok { category := 0xA, command := 4, payload := payload }) s)
          [Event.send firmware_query 500, Event.receive_data 2000]
          (some (GError.device Goodix5395InitState.CHECK_FIRMWARE
            "Firmware %s version is not supported."
            [FormatArg.text (c_string_chars payload)]))) :=
  check_firmware_version_outcome payload s

/-- C7, counterexample.  The payload "GF5288_HTSEC_APP_10011", a NUL and the letter A is
neither of the two strings, and CHECK_FIRMWARE advances on it. -/
theorem check_firmware_version_accepts_longer_payload :
    ¬ (advanced Session.fresh
        (fpi_device_goodixtls5395_check_firmware_version none
          (Except.ok { category := 0xA, command := 4,
                       payload := FIRMWARE_VERSION_1 ++ [0, 0x41] }) Session.fresh)
        [Event.send firmware_query 500, Event.receive_data 2000]
      ↔ (FIRMWARE_VERSION_1 ++ [0, 0x41] = FIRMWARE_VERSION_1
          ∨ FIRMWARE_VERSION_1 ++ [0, 0x41] = FIRMWARE_VERSION_2)) := by
  have h := (check_firmware_version_outcome (FIRMWARE_VERSION_1 ++ [0, 0x41])
    Session.fresh).1
  have hc : c_string_chars (FIRMWARE_VERSION_1 ++ [0, 0x41]) = FIRMWARE_VERSION_1 := by
    decide
  have hadv := h.mpr (Or.inl hc)
  intro hiff
  have hor := hiff.mp hadv
  revert hor
  decide

/-- C6, at the failing input.  A reply to the firmware query that arrives without error
and has category 0xA and command 3 makes CHECK_FIRMWARE call `fpi_ssm_mark_failed` with
the local `error`, which is still NULL: the failure carries no error. -/
theorem check_firmware_version_fails_with_null_error (payload : List Byte) (s : Session) :
    failed_with s
      (fpi_device_goodixtls5395_check_firmware_version none
        (Except.ok { category := 0xA, command := 3, payload := payload }) s)
      [Event.send firmware_query 500, Event.receive_data 2000]
      none := by
  simp [failed_with, fpi_device_goodixtls5395_check_firmware_version,
    fpi_goodix_protocol_create_message, firmware_query]


/-! ## CHECK_PSK -/

/-- A failure trace is not an advance trace. -/
theorem failed_not_advanced (s s1 : Session) (calls : List Event) (e : Option GError)
    (h : failed_with s s1 calls e) : ¬ advanced s s1 calls := by
  intro ha
  unfold failed_with at h
  unfold advanced at ha
  rw [h] at ha
  simp at ha

/-- The three header tests of the code, on a payload that holds the whole header, hold
together exactly for the records the specification accepts. -/
theorem record_accepted_iff (payload : List Byte) (hlen : payload.length < 4294967296) :
    record_accepted payload ↔
      (read_status payload = some 0 ∧ read_message_read_type payload = some 0xb003
        ∧ read_payload_size payload = some (len_minus_header payload.length)) := by
  rcases payload with _ | ⟨a, _ | ⟨b, _ | ⟨c, _ | ⟨d, _ | ⟨e, rest⟩⟩⟩⟩⟩
  case cons.cons.cons.cons.cons =>
    have hl : len_minus_header (a :: b :: c :: d :: e :: rest).length = rest.length := by
      simp only [List.length_cons] at hlen
      simp only [len_minus_header, sizeof_GoodixProductionRead, List.length_cons]
      omega
    rw [hl]
    simp only [record_accepted, parse_production_read, read_status, read_message_read_type,
      read_payload_size, mem_read, sizeof_GoodixProductionRead, List.length_cons]
    constructor
    · rintro ⟨r, hr, h1, h2, h3⟩
      simp only [Option.some.injEq] at hr
      subst hr
      simp only at h1 h2 h3
      refine ⟨?_, ?_, ?_⟩
      · simpa using h1
      · simpa using h2
      · simp
        push_cast at h3
        omega
    · rintro ⟨h1, h2, h3⟩
      refine ⟨_, rfl, ?_, ?_, ?_⟩
      · simpa using h1
      · simpa using h2
      · simp at h3
        push_cast
        omega
  all_goals
    constructor
    · rintro ⟨r, hr, _⟩
      simp [parse_production_read] at hr
    · rintro ⟨_, _, h3⟩
      simp [read_payload_size, mem_read] at h3

/-- What CHECK_PSK does on a reply of category 0xE and command 2 when the three header
reads and the comparison of the digest stay inside the payload: it advances with the
flag set to the result of the comparison. -/
theorem check_psk_accepts (payload : List Byte) (s : Session) (equal : Bool)
    (h1 : read_status payload = some 0)
    (h2 : read_message_read_type payload = some 0xb003)
    (h3 : read_payload_size payload = some (len_minus_header payload.length))
    (h4 : memcmp_eq_zero payload sizeof_GoodixProductionRead
        (crypto_utils_sha256_hash (g_malloc0 32))
        (crypto_utils_sha256_hash (g_malloc0 32)).length = some equal) :
    advanced s
        (fpi_device_goodixtls5395_check_psk none
          (Except.ok { category := 0xE, command := 2, payload := payload }) s)
        [Event.send psk_query 500, Event.receive_data 1000]
      ∧ (fpi_device_goodixtls5395_check_psk none
          (Except.ok { category := 0xE, command := 2, payload := payload }) s).is_psk_valid
        = equal := by
  simp [advanced, fpi_device_goodixtls5395_check_psk, fpi_goodix_protocol_create_message,
    psk_query, h1, h2, h3, h4]

/-- What CHECK_PSK does on a reply of category 0xE and command 2 whose payload holds the
whole header and is not an accepted record: it fails the machine with a CHECK_PSK error
and leaves the flag as it was. -/
theorem check_psk_rejects (payload : List Byte) (s : Session)
    (hlen : payload.length < 4294967296)
    (h5 : sizeof_GoodixProductionRead ≤ payload.length) (hna : ¬ record_accepted payload) :
    ∃ format args,
      failed_with s
        (fpi_device_goodixtls5395_check_psk none
          (Except.ok { category := 0xE, command := 2, payload := payload }) s)
        [Event.send psk_query 500, Event.receive_data 1000]
        (some (GError.device Goodix5395InitState.CHECK_PSK format args))
      ∧ (fpi_device_goodixtls5395_check_psk none
          (Except.ok { category := 0xE, command := 2, payload := payload }) s).is_psk_valid
        = s.is_psk_valid := by
  have hiff := record_accepted_iff payload hlen
  rcases payload with _ | ⟨a, _ | ⟨b, _ | ⟨c, _ | ⟨d, _ | ⟨e, rest⟩⟩⟩⟩⟩
  case cons.cons.cons.cons.cons =>
    have hs : read_status (a :: b :: c :: d :: e :: rest) = some a.val := by
      simp [read_status, mem_read]
    have ht : read_message_read_type (a :: b :: c :: d :: e :: rest)
        = some (b.val + 256 * c.val) := by
      simp [read_message_read_type, mem_read]
    have hz : read_payload_size (a :: b :: c :: d :: e :: rest)
        = some (d.val + 256 * e.val) := by
      simp [read_payload_size, mem_read]
    rw [hs, ht, hz] at hiff
    simp only [List.length_cons] at hiff
    by_cases c1 : a.val = 0
    · by_cases c2 : b.val + 256 * c.val = 0xb003
      · by_cases c3 : d.val + 256 * e.val
            = len_minus_header (rest.length + 1 + 1 + 1 + 1 + 1)
        · exact absurd (hiff.mpr ⟨by rw [c1], by rw [c2], by rw [c3]⟩) hna
        · simp [failed_with, fpi_device_goodixtls5395_check_psk,
            fpi_goodix_protocol_create_message, psk_query, hs, ht, hz, c1, c2, c3]
      · simp [failed_with, fpi_device_goodixtls5395_check_psk,
          fpi_goodix_protocol_create_message, psk_query, hs, ht, hz, c1, c2]
    · simp [failed_with, fpi_device_goodixtls5395_check_psk,
        fpi_goodix_protocol_create_message, psk_query, hs, ht, hz, c1]
  all_goals
    simp [sizeof_GoodixProductionRead] at h5

/-- Comparing `q.length` bytes at `offset` inside the buffer with `q` is comparing that
slice of the buffer with `q`. -/
theorem memcmp_eq_zero_iff (buf : List Byte) (offset : Nat) (q : List Byte)
    (h : offset + q.length ≤ buf.length) :
    memcmp_eq_zero buf offset q q.length
      = some (decide ((buf.drop offset).take q.length = q)) := by
  unfold memcmp_eq_zero
  rw [if_pos h]
  congr 1
  rw [Bool.eq_iff_iff, List.all_eq_true, decide_eq_true_iff]
  constructor
  · intro hall
    apply List.ext_getElem
    · simp; omega
    · intro i h1 h2
      have hi := hall i (by simp; exact h2)
      simp only [decide_eq_true_eq] at hi
      rw [List.getD_eq_getElem _ _ (by omega), List.getD_eq_getElem _ _ h2] at hi
      simp [hi]
  · intro heq i hi
    simp only [List.mem_range] at hi
    simp only [decide_eq_true_eq]
    rw [List.getD_eq_getElem _ _ (by omega), List.getD_eq_getElem _ _ hi]
    have : ((buf.drop offset).take q.length)[i]? = q[i]? := by rw [heq]
    rw [List.getElem?_take_of_lt hi, List.getElem?_drop] at this
    rw [List.getElem?_eq_getElem (by omega), List.getElem?_eq_getElem hi] at this
    simpa using this

/-- The digest the code compares with has 32 bytes. -/
theorem sha256_zero_seed_length : (crypto_utils_sha256_hash (g_malloc0 32)).length = 32 := by
  rw [sha256_zero_seed]
  rfl

/-- What CHECK_PSK does on an accepted record with at least 32 bytes of data: it
advances, and the flag tells whether the first 32 bytes of the data are the digest. -/
theorem check_psk_flag (payload : List Byte) (s : Session)
    (hlen : payload.length < 4294967296) (hacc : record_accepted payload)
    (h32 : 32 ≤ (payload.drop sizeof_GoodixProductionRead).length) :
    advanced s
        (fpi_device_goodixtls5395_check_psk none
          (Except.ok { category := 0xE, command := 2, payload := payload }) s)
        [Event.send psk_query 500, Event.receive_data 1000]
    ∧ ((fpi_device_goodixtls5395_check_psk none
        (Except.ok { category := 0xE, command := 2, payload := payload })
        s).is_psk_valid = true
      ↔ (payload.drop sizeof_GoodixProductionRead).take 32
          = crypto_utils_sha256_hash (g_malloc0 32)) := by
  have hiff := (record_accepted_iff payload hlen).mp hacc
  have hm := memcmp_eq_zero_iff payload sizeof_GoodixProductionRead
    (crypto_utils_sha256_hash (g_malloc0 32))
    (by rw [sha256_zero_seed_length]; simp at h32; simp [sizeof_GoodixProductionRead] at *; omega)
  have hout := check_psk_accepts payload s _ hiff.1 hiff.2.1 hiff.2.2 hm
  refine ⟨hout.1, ?_⟩
  rw [hout.2, sha256_zero_seed_length, decide_eq_true_iff]

/-- C8, at the failing inputs.  On a reply of category 0xE and command 2 whose payload
is empty, CHECK_PSK reads the status byte past the end of the payload before it gives
any verdict; on the one-byte payload 00 it reads the read type past the end; and on the
five-byte payload 00 03 b0 00 00, an accepted record with an empty data region, it
passes the three header tests and then lets `memcmp` read 32 bytes past the end.  In
none of the three does it fail the machine with a CHECK_PSK error or advance. -/
theorem check_psk_reads_past_short_payload (s : Session) :
    (fpi_device_goodixtls5395_check_psk none
        (Except.ok { category := 0xE, command := 2, payload := [] }) s).trace
      = s.trace ++ [Event.send psk_query 500, Event.receive_data 1000,
          Event.out_of_bounds_read]
    ∧ (fpi_device_goodixtls5395_check_psk none
        (Except.ok { category := 0xE, command := 2, payload := [0] }) s).trace
      = s.trace ++ [Event.send psk_query 500, Event.receive_data 1000,
          Event.out_of_bounds_read]
    ∧ record_accepted [0, 0x03, 0xb0, 0, 0]
    ∧ (fpi_device_goodixtls5395_check_psk none
        (Except.ok { category := 0xE, command := 2, payload := [0, 0x03, 0xb0, 0, 0] })
        s).trace
      = s.trace ++ [Event.send psk_query 500, Event.receive_data 1000,
          Event.out_of_bounds_read] := by
  refine ⟨?_, ?_, ⟨_, rfl, rfl, rfl, by decide⟩, ?_⟩
  · simp [fpi_device_goodixtls5395_check_psk, fpi_goodix_protocol_create_message,
      psk_query, read_status, mem_read]
  · simp [fpi_device_goodixtls5395_check_psk, fpi_goodix_protocol_create_message,
      psk_query, read_status, read_message_read_type, mem_read]
  · have hm : memcmp_eq_zero [0, 0x03, 0xb0, 0, 0] sizeof_GoodixProductionRead
        (crypto_utils_sha256_hash (g_malloc0 32))
        (crypto_utils_sha256_hash (g_malloc0 32)).length = none := by
      rw [sha256_zero_seed_length]
      rfl
    have h1 : read_status [0, 0x03, 0xb0, 0, 0] = some 0 := rfl
    have h2 : read_message_read_type [0, 0x03, 0xb0, 0, 0] = some 0xb003 := rfl
    have h3 : read_payload_size [0, 0x03, 0xb0, 0, 0] = some 0 := rfl
    have hl : len_minus_header 5 = 0 := rfl
    simp [fpi_device_goodixtls5395_check_psk, fpi_goodix_protocol_create_message,
      psk_query, h1, h2, h3, hm, hl]

/-- Where every read stays inside the payload the record validation is as the
specification says: on a payload of at least 37 bytes, header and digest, CHECK_PSK
advances exactly when the record is accepted, and otherwise fails the machine with a
CHECK_PSK error and leaves the flag as it was. -/
theorem check_psk_record_validation_in_bounds (payload : List Byte) (s : Session)
    (hlen : payload.length < 4294967296)
    (h37 : sizeof_GoodixProductionRead + 32 ≤ payload.length) :
    (advanced s
        (fpi_device_goodixtls5395_check_psk none
          (Except.ok { category := 0xE, command := 2, payload := payload }) s)
        [Event.send psk_query 500, Event.receive_data 1000]
      ↔ record_accepted payload)
    ∧ (¬ record_accepted payload →
      ∃ format args,
        failed_with s
          (fpi_device_goodixtls5395_check_psk none
            (Except.ok { category := 0xE, command := 2, payload := payload }) s)
          [Event.send psk_query 500, Event.receive_data 1000]
          (some (GError.device Goodix5395InitState.CHECK_PSK format args))
        ∧ (fpi_device_goodixtls5395_check_psk none
            (Except.ok { category := 0xE, command := 2, payload := payload })
            s).is_psk_valid = s.is_psk_valid) := by
  have h5 : sizeof_GoodixProductionRead ≤ payload.length := by omega
  refine ⟨⟨?_, ?_⟩, ?_⟩
  · intro hadv
    by_contra hna
    obtain ⟨f, a, hf, _⟩ := check_psk_rejects payload s hlen h5 hna
    exact failed_not_advanced _ _ _ _ hf hadv
  · intro hacc
    exact (check_psk_flag payload s hlen hacc (by simp; omega)).1
  · intro hna
    exact check_psk_rejects payload s hlen h5 hna

/-- C9, as amended.  For every accepted production-read record whose data region holds
at least 32 bytes, CHECK_PSK sets the PSK flag to true exactly when the first 32 bytes
of the data region are the SHA-256 digest of 32 zero bytes.  A region that is that
digest gives true, and a region that differs from it in any bit of its first 32 bytes
gives false. -/
theorem check_psk_flag_first_32_bytes (payload : List Byte)
    (s : Session) (hlen : payload.length < 4294967296) (hacc : record_accepted payload)
    (h32 : 32 ≤ (payload.drop sizeof_GoodixProductionRead).length) :
    (fpi_device_goodixtls5395_check_psk none
        (Except.ok { category := 0xE, command := 2, payload := payload })
        s).is_psk_valid = true
      ↔ (payload.drop sizeof_GoodixProductionRead).take 32
          = crypto_utils_sha256_hash (g_malloc0 32) :=
  (check_psk_flag payload s hlen hacc h32).2

/-- Witness of C9: the record whose data region is the digest itself. -/
theorem check_psk_flag_first_32_bytes_witness :
    (fpi_device_goodixtls5395_check_psk none
        (Except.ok { category := 0xE, command := 2,
                     payload := [0, 0x03, 0xb0, 32, 0] ++ zero_seed_digest })
        Session.fresh).is_psk_valid = true
      ↔ (([0, 0x03, 0xb0, 32, 0] ++ zero_seed_digest).drop
            sizeof_GoodixProductionRead).take 32
          = crypto_utils_sha256_hash (g_malloc0 32) :=
  check_psk_flag_first_32_bytes ([0, 0x03, 0xb0, 32, 0] ++ zero_seed_digest)
    Session.fresh (by decide) ⟨_, rfl, rfl, rfl, by decide⟩ (by decide)

/-- C9, counterexample.  The record with payload size 33 whose data region is the
digest followed by the byte 0xAA is accepted and sets the flag, and its data region is
not the digest. -/
theorem check_psk_flag_set_by_longer_region :
    record_accepted ([0, 0x03, 0xb0, 33, 0] ++ zero_seed_digest ++ [0xAA])
    ∧ ¬ ((fpi_device_goodixtls5395_check_psk none
            (Except.ok { category := 0xE, command := 2,
                         payload := [0, 0x03, 0xb0, 33, 0] ++ zero_seed_digest ++ [0xAA] })
            Session.fresh).is_psk_valid = true
          ↔ ([0, 0x03, 0xb0, 33, 0] ++ zero_seed_digest ++ [0xAA]).drop
              sizeof_GoodixProductionRead
            = crypto_utils_sha256_hash (g_malloc0 32)) := by
  have hacc : record_accepted ([0, 0x03, 0xb0, 33, 0] ++ zero_seed_digest ++ [0xAA]) :=
    ⟨_, rfl, rfl, rfl, by decide⟩
  refine ⟨hacc, ?_⟩
  have hflag := (check_psk_flag ([0, 0x03, 0xb0, 33, 0] ++ zero_seed_digest ++ [0xAA])
    Session.fresh (by decide) hacc (by decide)).2.mpr
    (by rw [sha256_zero_seed]; decide)
  intro hiff
  have heq := hiff.mp hflag
  rw [sha256_zero_seed] at heq
  revert heq
  decide

/-! ## WRITE_PSK -/

/-- On a reply with an empty payload, WRITE_PSK reads the first byte past the end of the
payload before it gives any verdict. -/
theorem write_psk_reads_past_empty_reply (payload_2 payload_3 category command : Byte)
    (s : Session) (hv : s.is_psk_valid = false) :
    (fpi_device_goodixtls5395_write_psk payload_2 payload_3 none
        (Except.ok { category := category, command := command, payload := [] }) s).trace
      = s.trace ++ [Event.send (fpi_goodix_protocol_create_message 0xE 1
              ([0x02, 0xb0, payload_2, payload_3, 96] ++ goodix5395_psk_white_box)) 500,
          Event.receive_data 1000, Event.out_of_bounds_read] := by
  have hlen : (Fin.ofNat goodix5395_psk_white_box.length : Byte) = 96 := by decide
  simp [fpi_device_goodixtls5395_write_psk, hv, hlen, fpi_goodix_protocol_create_message,
    mem_read]

/-! ## UPDATE_ALL_BASE -/

/-- C4, at the failing input.  In UPDATE_ALL_BASE, with a configuration upload that
fails and validators that accept, the handler marks the machine failed inside
`fpi_goodix5395_upload_config`, returns from that helper only, goes on with five
captures and then advances: two verdicts in one invocation, and device calls after the
failure. -/
theorem update_all_base_two_verdicts :
    (fpi_goodix5395_run_init_state world_upload_fails session_at_update_all_base).trace
      = [Event.upload_config, Event.mark_failed (some (GError.foreign 1)),
         Event.get_fdt_base_with_tx true, Event.get_image true true,
         Event.get_fdt_base_with_tx false, Event.get_image false true,
         Event.get_fdt_base_with_tx true, Event.next_state]
    ∧ signal_count
        (fpi_goodix5395_run_init_state world_upload_fails session_at_update_all_base).trace
        = 2
    ∧ quiet_after_failure
        (fpi_goodix5395_run_init_state world_upload_fails session_at_update_all_base).trace
        = false := by
  decide

/-- C5, at the failing input.  In UPDATE_ALL_BASE, with a configuration upload that
fails and validators that accept, the handler marks the machine failed and still writes
the FDT base and the calibration image, which were unset before. -/
theorem update_all_base_writes_after_upload_failure :
    session_at_update_all_base.fdt_bases = none
    ∧ session_at_update_all_base.calibration_image = none
    ∧ Event.mark_failed (some (GError.foreign 1))
        ∈ (fpi_goodix5395_run_init_state world_upload_fails session_at_update_all_base).trace
    ∧ (fpi_goodix5395_run_init_state world_upload_fails session_at_update_all_base).ssm.failed
        = true
    ∧ (fpi_goodix5395_run_init_state world_upload_fails session_at_update_all_base).fdt_bases
        = some [1, 0]
    ∧ (fpi_goodix5395_run_init_state world_upload_fails
        session_at_update_all_base).calibration_image = some [7] := by
  decide

/-! ## Device open -/

/-- C3, at the failing inputs.  When initialisation succeeds and the ping of INIT_DEVICE
cannot be sent, the machine fails with the transport error and
`fpi_device_goodixtls5395_img_open` still completes the open with no error.  When
initialisation itself fails with an error, the open is completed with no error too. -/
theorem img_open_reports_success_after_failure :
    (fpi_device_goodixtls5395_img_open true none world_ping_fails Session.fresh).ssm.failed
      = true
    ∧ (fpi_device_goodixtls5395_img_open true none world_ping_fails Session.fresh).ssm.error
      = some (GError.foreign 1)
    ∧ (fpi_device_goodixtls5395_img_open true none world_ping_fails Session.fresh).trace
      = [Event.empty_buffer,
         Event.send { category := 0, command := 0, payload := [0, 0] } 500,
         Event.mark_failed (some (GError.foreign 1)),
         Event.open_complete none]
    ∧ (fpi_device_goodixtls5395_img_open false (some (GError.foreign 2)) world_all_good
        Session.fresh).trace = [Event.open_complete none] := by
  decide


/-! ## One verdict per invocation -/

/-- INIT_DEVICE gives one verdict. -/
theorem ping_signals_once (r : Option GError) (s : Session) :
    signals_once (new_events s (fpi_device_goodixtls5395_ping r s)) = true := by
  cases r <;>
    simp [new_events, fpi_device_goodixtls5395_ping, signals_once, signal_count,
      quiet_after_failure, Event.is_signal, Event.is_failure, Event.is_exchange]

/-- CHECK_FIRMWARE gives one verdict. -/
theorem check_firmware_version_signals_once (r : Option GError)
    (m : Except GError GoodixMessage) (s : Session) :
    signals_once (new_events s (fpi_device_goodixtls5395_check_firmware_version r m s))
      = true := by
  unfold fpi_device_goodixtls5395_check_firmware_version
  rcases r with _ | e
  · rcases m with e | m
    · simp [new_events, signals_once, signal_count,
        quiet_after_failure, Event.is_signal, Event.is_failure, Event.is_exchange]
    · simp only []
      split_ifs <;>
      simp [new_events, signals_once, signal_count,
        quiet_after_failure, Event.is_signal, Event.is_failure, Event.is_exchange]
  · simp [new_events, signals_once, signal_count,
      quiet_after_failure, Event.is_signal, Event.is_failure, Event.is_exchange]

/-- DEVICE_ENABLE gives one verdict. -/
theorem device_enable_signals_once (f : List Byte → Nat) (r : Option GError) (m : Except GError GoodixMessage) (s : Session) :
    signals_once (new_events s (fpi_device_goodixtls5395_device_enable f r m s)) = true := by
  unfold fpi_device_goodixtls5395_device_enable
  rcases r with _ | e
  · rcases m with e | m
    · simp [new_events, signals_once, signal_count,
        quiet_after_failure, Event.is_signal, Event.is_failure, Event.is_exchange]
    · simp only []
      split_ifs <;>
      simp [new_events, signals_once, signal_count,
        quiet_after_failure, Event.is_signal, Event.is_failure, Event.is_exchange]
  · simp [new_events, signals_once, signal_count,
      quiet_after_failure, Event.is_signal, Event.is_failure, Event.is_exchange]

/-- CHECK_SENSOR gives one verdict. -/
theorem check_sensor_signals_once (f : List Byte → List Byte → Bool) (r : Option GError) (m : Except GError GoodixMessage) (s : Session) :
    signals_once (new_events s (fpi_device_goodixtls5395_check_sensor f r m s)) = true := by
  unfold fpi_device_goodixtls5395_check_sensor
  rcases r with _ | e
  · rcases m with e | m
    · simp [new_events, signals_once, signal_count,
        quiet_after_failure, Event.is_signal, Event.is_failure, Event.is_exchange]
    · simp only []
      split_ifs <;>
      simp [new_events, signals_once, signal_count,
        quiet_after_failure, Event.is_signal, Event.is_failure, Event.is_exchange]
  · simp [new_events, signals_once, signal_count,
      quiet_after_failure, Event.is_signal, Event.is_failure, Event.is_exchange]

/-- CHECK_PSK gives one verdict, unless it reads past the end of the reply payload. -/
theorem check_psk_signals_once (r : Option GError) (m : Except GError GoodixMessage)
    (s : Session) :
    signals_once (new_events s (fpi_device_goodixtls5395_check_psk r m s)) = true
      ∨ Event.out_of_bounds_read
          ∈ new_events s (fpi_device_goodixtls5395_check_psk r m s) := by
  unfold fpi_device_goodixtls5395_check_psk
  rcases r with _ | e
  · rcases m with e | m
    · simp [new_events, signals_once, signal_count,
        quiet_after_failure, Event.is_signal, Event.is_failure, Event.is_exchange]
    · simp only []
      repeat' split
      all_goals
        simp [new_events, signals_once, signal_count,
          quiet_after_failure, Event.is_signal, Event.is_failure, Event.is_exchange]
  · simp [new_events, signals_once, signal_count,
      quiet_after_failure, Event.is_signal, Event.is_failure, Event.is_exchange]

/-- WRITE_PSK gives one verdict, unless it reads past the end of the reply payload. -/
theorem write_psk_signals_once (p2 p3 : Byte) (r : Option GError)
    (m : Except GError GoodixMessage) (s : Session) :
    signals_once (new_events s (fpi_device_goodixtls5395_write_psk p2 p3 r m s)) = true
      ∨ Event.out_of_bounds_read
          ∈ new_events s (fpi_device_goodixtls5395_write_psk p2 p3 r m s) := by
  unfold fpi_device_goodixtls5395_write_psk
  by_cases hv : s.is_psk_valid = true
  · simp [hv, new_events, signals_once, signal_count,
      quiet_after_failure, Event.is_signal, Event.is_failure, Event.is_exchange]
  · simp only [hv, if_false]
    rcases r with _ | e
    · rcases m with e | m
      · simp [new_events, signals_once, signal_count,
          quiet_after_failure, Event.is_signal, Event.is_failure, Event.is_exchange]
      · simp only []
        repeat' split
        all_goals
          simp [new_events, signals_once, signal_count,
            quiet_after_failure, Event.is_signal, Event.is_failure, Event.is_exchange]
    · simp [new_events, signals_once, signal_count,
        quiet_after_failure, Event.is_signal, Event.is_failure, Event.is_exchange]

/-- ESTABLISH_GTS_CONNECTION, as modelled, gives one verdict. -/
theorem gtls_connection_signals_once (r : Option GError) (s : Session) :
    signals_once (new_events s (fpi_goodix_device_gtls_connection r s)) = true := by
  cases r <;>
    simp [new_events, fpi_goodix_device_gtls_connection, signals_once, signal_count,
      quiet_after_failure, Event.is_signal, Event.is_failure, Event.is_exchange]

/-- SET_SLEEP_MODE gives one verdict. -/
theorem set_sleep_mode_signals_once (r : Option GError) (s : Session) :
    signals_once (new_events s (fpi_goodix5395_set_sleep_mode r s)) = true := by
  cases r <;>
    simp [new_events, fpi_goodix5395_set_sleep_mode, signals_once, signal_count,
      quiet_after_failure, Event.is_signal, Event.is_failure, Event.is_exchange]

/-- UPDATE_ALL_BASE gives one verdict when the configuration upload succeeds. -/
theorem update_all_base_signals_once (env : UpdateAllBaseEnv) (s : Session)
    (h : env.upload_result = none) :
    signals_once (new_events s (fpi_goodix5395_update_all_base env s)) = true := by
  unfold fpi_goodix5395_update_all_base fpi_goodix5395_upload_config
  rw [h]
  simp only []
  split_ifs <;>
  simp [new_events, signals_once, signal_count,
    quiet_after_failure, Event.is_signal, Event.is_failure, Event.is_exchange]

/-- Every handler the dispatcher calls gives one verdict and is quiet after a failure,
with two exceptions: UPDATE_ALL_BASE with a failing configuration upload, and a handler
that reads past the end of a reply payload. -/
theorem run_init_state_signals_once (env : BringUpEnv) (s : Session)
    (hs : s.ssm.cur_state < DEVICE_INIT_NUM_STATES)
    (hup : s.ssm.cur_state = 7 → env.update_all_base.upload_result = none) :
    signals_once (new_events s (fpi_goodix5395_run_init_state env s)) = true
      ∨ Event.out_of_bounds_read
          ∈ new_events s (fpi_goodix5395_run_init_state env s) := by
  unfold fpi_goodix5395_run_init_state
  unfold DEVICE_INIT_NUM_STATES at hs
  generalize hc : s.ssm.cur_state = c at hs hup
  interval_cases c
  · exact Or.inl (ping_signals_once _ s)
  · exact Or.inl (check_firmware_version_signals_once _ _ s)
  · exact Or.inl (device_enable_signals_once _ _ _ s)
  · exact Or.inl (check_sensor_signals_once _ _ _ s)
  · exact check_psk_signals_once _ _ s
  · exact write_psk_signals_once _ _ _ _ s
  · exact Or.inl (gtls_connection_signals_once _ s)
  · exact Or.inl (update_all_base_signals_once _ s (hup rfl))
  · exact Or.inl (set_sleep_mode_signals_once _ s)

/-- The end-to-end scenario: in the world where everything succeeds the machine runs
through all nine states, completes without failure, finds the PSK valid and skips the
write. -/
theorem bring_up_all_good :
    (fpi_ssm_start (fpi_ssm_new DEVICE_INIT_NUM_STATES)
        (fpi_goodix5395_run_init_state world_all_good) Session.fresh).ssm
      = { nr_states := 9, cur_state := 9, completed := true, failed := false, error := none }
    ∧ (fpi_ssm_start (fpi_ssm_new DEVICE_INIT_NUM_STATES)
        (fpi_goodix5395_run_init_state world_all_good) Session.fresh).is_psk_valid = true
    ∧ signal_count (fpi_ssm_start (fpi_ssm_new DEVICE_INIT_NUM_STATES)
        (fpi_goodix5395_run_init_state world_all_good) Session.fresh).trace = 9 := by
  decide!

/-- Whatever the bring-up does, the open that follows a successful initialisation is
completed with the error initialisation left, and the open that follows a failed one
with no error. -/
theorem img_open_last_event (init_ok : Bool) (init_error : Option GError)
    (env : BringUpEnv) (s : Session) :
    (fpi_device_goodixtls5395_img_open init_ok init_error env s).trace.getLast?
      = some (Event.open_complete (if init_ok = true then init_error else none)) := by
  unfold fpi_device_goodixtls5395_img_open
  cases init_ok <;> simp


/-! ## Base image validator -/

/-- Every pixel of a flat image has its value. -/
theorem flat_image_getD (v : Byte) (i : Nat) (h : i < SENSOR_WIDTH * SENSOR_HEIGHT) :
    (flat_image v).getD i 0 = v := by
  unfold flat_image
  rw [List.getD_eq_getElem _ _ (by simpa using h)]
  simp

/-- Summing a constant over a list. -/
theorem sum_map_const (l : List Nat) (c : Nat) : (l.map (fun _ => c)).sum = l.length * c := by
  induction l with
  | nil => simp
  | cons x xs ih => simp [ih, Nat.succ_mul, Nat.add_comm]

/-- The interior of the sensor has 104 rows of 84 pixels; two flat images differ by the
same amount at each of them. -/
theorem interior_diff_sum_flat (u v : Byte) :
    interior_diff_sum (flat_image u) (flat_image v)
      = 104 * (84 * Int.natAbs ((v.val : Int) - (u.val : Int))) := by
  unfold interior_diff_sum
  have inner : ∀ row_idx ∈ List.range' 2 (SENSOR_HEIGHT - 4),
      ((List.range' 2 (SENSOR_WIDTH - 4)).map (fun col_idx =>
        Int.natAbs ((((flat_image v).getD (row_idx * SENSOR_WIDTH + col_idx) 0).val : Int)
          - (((flat_image u).getD (row_idx * SENSOR_WIDTH + col_idx) 0).val : Int)))).sum
      = 84 * Int.natAbs ((v.val : Int) - (u.val : Int)) := by
    intro row_idx hr
    have hr2 : row_idx < 106 := by
      simp [List.mem_range', SENSOR_HEIGHT] at hr
      omega
    have cell : ∀ col_idx ∈ List.range' 2 (SENSOR_WIDTH - 4),
        Int.natAbs ((((flat_image v).getD (row_idx * SENSOR_WIDTH + col_idx) 0).val : Int)
          - (((flat_image u).getD (row_idx * SENSOR_WIDTH + col_idx) 0).val : Int))
        = Int.natAbs ((v.val : Int) - (u.val : Int)) := by
      intro col_idx hc
      have hc2 : col_idx < 86 := by
        simp [List.mem_range', SENSOR_WIDTH] at hc
        omega
      have hb : row_idx * SENSOR_WIDTH + col_idx < SENSOR_WIDTH * SENSOR_HEIGHT := by
        simp only [SENSOR_WIDTH, SENSOR_HEIGHT]
        omega
      rw [flat_image_getD v _ hb, flat_image_getD u _ hb]
    rw [List.map_congr_left cell, sum_map_const, List.length_range']
    rfl
  rw [List.map_congr_left inner, sum_map_const, List.length_range']
  rfl

/-- The validator on the all-0 and the all-255 image, whose interior mean difference is
255: invalid at threshold 254, valid at threshold 255. -/
theorem validate_base_img_flat_examples :
    fpi_goodix_device_validate_base_img (flat_image 0) (flat_image 255) 254 = false
    ∧ fpi_goodix_device_validate_base_img (flat_image 0) (flat_image 255) 255 = true := by
  have hsum : interior_diff_sum (flat_image 0) (flat_image 255) = 2227680 := by
    rw [interior_diff_sum_flat]
    rfl
  have hc : (SENSOR_HEIGHT - 4) * (SENSOR_WIDTH - 4) = 8736 := rfl
  unfold fpi_goodix_device_validate_base_img
  simp only [hsum, hc]
  constructor <;> norm_num

/-- What SET_SLEEP_MODE does: it advances when the sleep call left no error, and fails
the machine with an error of its own making when the call left one. -/
theorem set_sleep_mode_outcome (s : Session) :
    advanced s (fpi_goodix5395_set_sleep_mode none s) [Event.set_sleep_mode]
    ∧ ∀ e : GError,
        failed_with s (fpi_goodix5395_set_sleep_mode (some e) s) [Event.set_sleep_mode]
          (some (GError.device Goodix5395InitState.UPDATE_ALL_BASE "Error set sleep mode"
            [FormatArg.null])) := by
  constructor
  · simp [advanced, fpi_goodix5395_set_sleep_mode]
  · intro e
    simp [failed_with, fpi_goodix5395_set_sleep_mode]

/-- C11, as amended.  SET_SLEEP_MODE advances when the sleep command completes without
error; when the device layer reports an error `e`, it fails the machine with an error
that the handler builds itself, with the message "Error set sleep mode", whatever `e`
is, and makes no further call. -/
theorem set_sleep_mode_builds_its_own_error (s : Session) :
    advanced s (fpi_goodix5395_set_sleep_mode none s) [Event.set_sleep_mode]
    ∧ ∀ e : GError, ∃ code,
        failed_with s (fpi_goodix5395_set_sleep_mode (some e) s) [Event.set_sleep_mode]
          (some (GError.device code "Error set sleep mode" [FormatArg.null])) :=
  ⟨(set_sleep_mode_outcome s).1, fun e => ⟨_, (set_sleep_mode_outcome s).2 e⟩⟩

/-- C11, counterexample.  With the transport error `foreign 1` left by the sleep call,
the error SET_SLEEP_MODE fails the machine with is not that error. -/
theorem set_sleep_mode_drops_transport_error :
    ¬ failed_with Session.fresh
        (fpi_goodix5395_set_sleep_mode (some (GError.foreign 1)) Session.fresh)
        [Event.set_sleep_mode] (some (GError.foreign 1)) := by
  intro h
  have h2 := (set_sleep_mode_outcome Session.fresh).2 (GError.foreign 1)
  unfold failed_with at h h2
  rw [h2] at h
  simp at h

/-! ## DEVICE_ENABLE -/

/-- The test on the `int` chip ID, in terms of the unsigned 32-bit value: a pattern with
the top bit set is a negative `int`, whose shift is negative too. -/
theorem chip_id_shift_iff (n : Nat) :
    to_int32 n >>> 8 = 0x220C ↔ n % 4294967296 / 256 = 0x220C := by
  unfold to_int32
  have hlt : n % 4294967296 < 4294967296 := Nat.mod_lt _ (by decide)
  generalize n % 4294967296 = k at hlt
  by_cases hk : k < 2147483648
  · rw [if_pos hk]
    have h8 : ((k : Nat) : Int) >>> (8 : Int) = ((k >>> 8 : Nat) : Int) :=
      Int.shiftRight_coe_nat k 8
    rw [h8, Nat.shiftRight_eq_div_pow]
    constructor
    · intro h
      have h2 : ((k / 2 ^ 8 : Nat) : Int) = ((0x220C : Nat) : Int) := by simpa using h
      have h3 := Int.ofNat.inj h2
      simpa using h3
    · intro h
      have h2 : k / 2 ^ 8 = 0x220C := by simpa using h
      rw [h2]
      rfl
  · rw [if_neg hk]
    have hneg : ((k : Nat) : Int) - 4294967296 = Int.negSucc (4294967295 - k) := by
      rw [Int.negSucc_eq]
      push_cast [Nat.cast_sub (show k ≤ 4294967295 by omega)]
      ring
    have h8 : Int.negSucc (4294967295 - k) >>> (8 : Int)
        = Int.negSucc ((4294967295 - k) >>> 8) :=
      Int.shiftRight_negSucc (4294967295 - k) 8
    rw [hneg, h8, Int.negSucc_eq]
    constructor
    · intro h
      have hnn : (0 : Int) ≤ (((4294967295 - k) >>> 8 : Nat) : Int) := Int.ofNat_nonneg _
      omega
    · intro h
      omega

/-- C12.  For every reply received after a successful send, DEVICE_ENABLE advances
exactly when the reply has category 0x8 and command 0x1 and the decoded 32-bit chip ID
with its low 8 bits dropped is 0x220C, that is, the chip ID lies in 0x220C00..0x220CFF;
a reply of that category and command with another chip ID fails the machine with the
"Unsupported chip ID" error, and a reply of another category or command fails it with
the "Not a register read message" error. -/
theorem device_enable_behaviour (decode_u32 : List Byte → Nat) (m : GoodixMessage)
    (s : Session) :
    (advanced s
        (fpi_device_goodixtls5395_device_enable decode_u32 none (Except.ok m) s)
        [Event.reset, Event.send enable_command 500, Event.receive_data 200]
      ↔ (m.category = 0x8 ∧ m.command = 0x1
          ∧ decoded_chip_id decode_u32 m.payload / 256 = 0x220C))
    ∧ (decoded_chip_id decode_u32 m.payload / 256 = 0x220C
        ↔ (0x220C00 ≤ decoded_chip_id decode_u32 m.payload
            ∧ decoded_chip_id decode_u32 m.payload ≤ 0x220CFF))
    ∧ (m.category = 0x8 ∧ m.command = 0x1
        ∧ decoded_chip_id decode_u32 m.payload / 256 ≠ 0x220C →
      failed_with s
        (fpi_device_goodixtls5395_device_enable decode_u32 none (Except.ok m) s)
        [Event.reset, Event.send enable_command 500, Event.receive_data 200]
        (some (GError.device Goodix5395InitState.DEVICE_ENABLE "Unsupported chip ID %x"
          [FormatArg.num (to_int32 (decode_u32 m.payload))])))
    ∧ (¬ (m.category = 0x8 ∧ m.command = 0x1) →
      failed_with s
        (fpi_device_goodixtls5395_device_enable decode_u32 none (Except.ok m) s)
        [Event.reset, Event.send enable_command 500, Event.receive_data 200]
        (some (GError.device Goodix5395InitState.DEVICE_ENABLE
          "Not a register read message for command %02x"
          [FormatArg.num m.command.val]))) := by
  have hchip := chip_id_shift_iff (decode_u32 m.payload)
  refine ⟨?_, ?_, ?_, ?_⟩
  · by_cases hc : m.category = 0x8 ∧ m.command = 0x1
    · by_cases hid : to_int32 (decode_u32 m.payload) >>> 8 = 0x220C
      · have hid2 := hchip.mp hid
        simp [advanced, fpi_device_goodixtls5395_device_enable,
          fpi_goodix_protocol_create_message, enable_command, decoded_chip_id, hc, hid, hid2]
      · have hid2 : ¬ _ := fun h => hid (hchip.mpr h)
        simp [advanced, fpi_device_goodixtls5395_device_enable,
          fpi_goodix_protocol_create_message, enable_command, decoded_chip_id, hc, hid, hid2]
    · have hc2 : ¬ (m.category = 0x8 ∧ m.command = 0x1
          ∧ decoded_chip_id decode_u32 m.payload / 256 = 0x220C) :=
        fun h => hc ⟨h.1, h.2.1⟩
      simp only [hc2, iff_false]
      simp [advanced, fpi_device_goodixtls5395_device_enable,
        fpi_goodix_protocol_create_message, enable_command, hc]
  · unfold decoded_chip_id
    omega
  · rintro ⟨h1, h2, h3⟩
    have hid : ¬ to_int32 (decode_u32 m.payload) >>> 8 = 0x220C :=
      fun h => h3 (hchip.mp h)
    simp [failed_with, fpi_device_goodixtls5395_device_enable,
      fpi_goodix_protocol_create_message, enable_command, h1, h2, hid]
  · intro hc
    simp [failed_with, fpi_device_goodixtls5395_device_enable,
      fpi_goodix_protocol_create_message, enable_command, hc]

/-- Two concrete replies of category 0x8 and command 0x1: chip ID 0x220C7F advances, and
chip ID 0x80220C00, a negative `int`, fails. -/
theorem device_enable_examples :
    advanced Session.fresh
      (fpi_device_goodixtls5395_device_enable (fun _ => 0x220C7F) none
        (Except.ok { category := 0x8, command := 0x1, payload := [] }) Session.fresh)
      [Event.reset, Event.send enable_command 500, Event.receive_data 200]
    ∧ failed_with Session.fresh
      (fpi_device_goodixtls5395_device_enable (fun _ => 0x80220C00) none
        (Except.ok { category := 0x8, command := 0x1, payload := [] }) Session.fresh)
      [Event.reset, Event.send enable_command 500, Event.receive_data 200]
      (some (GError.device Goodix5395InitState.DEVICE_ENABLE "Unsupported chip ID %x"
        [FormatArg.num (-2145252352)])) := by
  unfold advanced failed_with
  constructor <;> decide

end Goodix5395
